import Mathlib

/-!
Shallow embedding of `libs/gltfio/src/AssetLoader.cpp` (namespace `gltfio`).

Modelling conventions:
  * C++ pointers used as identities (cgltf node/mesh/material objects, Filament
    `VertexBuffer` / `IndexBuffer` / `MaterialInstance` handles, `Entity` ids)
    become `Nat` identifiers.  Engine-side handles are allocated from a single
    monotone counter (`LoaderState.fresh`), so two handles are the same object
    iff they are the same number.
  * `float` scalars are modelled as `ℚ`; `min` / `max` are exact in IEEE
    floats, so the lattice structure of the bounding-box computations is
    preserved by this choice.  `FLT_MAX` is modelled by its exact value.
  * Fallible C++ paths (`return false`, unrecoverable null dereference) become
    `Bool` results, `Except`, or explicit outcome constructors.
  * Byte sizes are kept as exact `Nat`s; the `uint32_t` casts in the source do
    not overflow for well-formed glTF inputs, so no `% 2^32` is applied.
  * Ghost observation fields (`buildLog`, `vbBuilds`, `renderLog`,
    `contribLog`) record events (calls to `createPrimitive`, `vbb.build`,
    `builder.geometry`, world-box contributions) without influencing any
    computation; they exist so the theorems can talk about "work performed".
-/

namespace Gltfio

/-- cgltf primitive topologies (`cgltf_primitive_type`). -/
inductive CTopology where
  | points
  | lines
  | lineLoop
  | lineStrip
  | triangles
  | triangleStrip
  | triangleFan
deriving DecidableEq

/-- cgltf component types (`cgltf_component_type`). -/
inductive CComponentType where
  | r8
  | r8u
  | r16
  | r16u
  | r32u
  | r32f
deriving DecidableEq

/-- cgltf accessor shapes (`cgltf_type`). -/
inductive CAccShape where
  | scalar
  | vec2
  | vec3
  | vec4
  | mat2
  | mat3
  | mat4
deriving DecidableEq

/-- cgltf attribute semantics (`cgltf_attribute_type`). -/
inductive CAttributeType where
  | invalid
  | position
  | normal
  | tangent
  | texcoord
  | color
  | joints
  | weights
deriving DecidableEq

/-- Rational 3-vector standing in for `filament::math::float3`. -/
structure Vec3 where
  x : ℚ
  y : ℚ
  z : ℚ
deriving DecidableEq

/-- Rational 4-vector standing in for `filament::math::float4`. -/
structure Vec4 where
  x : ℚ
  y : ℚ
  z : ℚ
  w : ℚ
deriving DecidableEq

/-- Minimum of two rationals, written out so that it evaluates by kernel
reduction (same value as `min`). -/
def qmin (a b : ℚ) : ℚ := if a ≤ b then a else b

/-- Maximum of two rationals, written out so that it evaluates by kernel
reduction (same value as `max`). -/
def qmax (a b : ℚ) : ℚ := if a ≤ b then b else a

/-- Componentwise minimum (`filament::math::min` on `float3`). -/
def vmin (a b : Vec3) : Vec3 := ⟨qmin a.x b.x, qmin a.y b.y, qmin a.z b.z⟩

/-- Componentwise maximum (`filament::math::max` on `float3`). -/
def vmax (a b : Vec3) : Vec3 := ⟨qmax a.x b.x, qmax a.y b.y, qmax a.z b.z⟩

/-- Column-major 4x4 matrix standing in for `filament::math::mat4f`. -/
structure Mat4 where
  c0 : Vec4
  c1 : Vec4
  c2 : Vec4
  c3 : Vec4
deriving DecidableEq

/-- Matrix-vector product (`mat4f * float4`). -/
def mulVec (m : Mat4) (v : Vec4) : Vec4 :=
  ⟨m.c0.x * v.x + m.c1.x * v.y + m.c2.x * v.z + m.c3.x * v.w,
   m.c0.y * v.x + m.c1.y * v.y + m.c2.y * v.z + m.c3.y * v.w,
   m.c0.z * v.x + m.c1.z * v.y + m.c2.z * v.z + m.c3.z * v.w,
   m.c0.w * v.x + m.c1.w * v.y + m.c2.w * v.z + m.c3.w * v.w⟩

/-- Matrix product (`mat4f * mat4f`), columnwise. -/
def mulMat (m n : Mat4) : Mat4 :=
  ⟨mulVec m n.c0, mulVec m n.c1, mulVec m n.c2, mulVec m n.c3⟩

/-- The identity `mat4f` (default-constructed local/root transform). -/
def identityMat4 : Mat4 :=
  ⟨⟨1, 0, 0, 0⟩, ⟨0, 1, 0, 0⟩, ⟨0, 0, 1, 0⟩, ⟨0, 0, 0, 1⟩⟩

/-- Exact value of `FLT_MAX` = (2 - 2^-23) * 2^127 = 2^128 - 2^104, as a
numeral so that it evaluates by kernel reduction. -/
def fltMax : ℚ := 340282346638528859811704183484516925440

/-- Axis-aligned bounding box (gltfio `Aabb`). -/
structure Aabb where
  min : Vec3
  max : Vec3
deriving DecidableEq

/-- Default-constructed gltfio `Aabb`: min = +FLT_MAX, max = -FLT_MAX. -/
def emptyAabb : Aabb :=
  { min := ⟨fltMax, fltMax, fltMax⟩, max := ⟨-fltMax, -fltMax, -fltMax⟩ }

/-- `cgltf_buffer`: identity (`id` models the object address) plus the fields
the loader reads (`uri`, `size`).  `data` in a binding is modelled by the
buffer id of the buffer whose data pointer is referenced. -/
structure CBuffer where
  id : Nat
  uri : Option String
  size : Nat
deriving DecidableEq

/-- `cgltf_buffer_view`: offset into its buffer. -/
structure CBufferView where
  offset : Nat
  buffer : CBuffer
deriving DecidableEq

/-- `cgltf_accessor`, restricted to the fields `AssetLoader.cpp` reads.
`minv` / `maxv` are the declared min/max metadata (used only for the
position attribute). -/
structure CAccessor where
  componentType : CComponentType
  shape : CAccShape
  count : Nat
  stride : Nat
  offset : Nat
  bufferView : CBufferView
  normalized : Bool
  isSparse : Bool
  minv : Vec3
  maxv : Vec3
deriving DecidableEq

/-- `cgltf_attribute`: semantic type, set index (e.g. TEXCOORD_n), accessor. -/
structure CAttribute where
  type : CAttributeType
  index : Nat
  data : CAccessor
deriving DecidableEq

/-- Number of components of an accessor shape (`cgltf_num_components`). -/
def numComponents : CAccShape → Nat
  | .scalar => 1
  | .vec2 => 2
  | .vec3 => 3
  | .vec4 => 4
  | .mat2 => 4
  | .mat3 => 9
  | .mat4 => 16

/-- Byte size of one component (`cgltf_component_size`). -/
def componentSize : CComponentType → Nat
  | .r8 => 1
  | .r8u => 1
  | .r16 => 2
  | .r16u => 2
  | .r32u => 4
  | .r32f => 4

/-- `cgltf_calc_size`: byte size of one element. -/
def calcSize (sh : CAccShape) (ct : CComponentType) : Nat :=
  numComponents sh * componentSize ct

/-- `computeBindingSize` (AssetLoader.cpp, line 92):
`stride * (count - 1) + element_size`. -/
def computeBindingSize (a : CAccessor) : Nat :=
  a.stride * (a.count - 1) + calcSize a.shape a.componentType

/-- `computeBindingOffset` (AssetLoader.cpp, line 97):
`accessor->offset + accessor->buffer_view->offset`. -/
def computeBindingOffset (a : CAccessor) : Nat :=
  a.offset + a.bufferView.offset

/-- Filament vertex attribute semantics used by the loader. -/
inductive VertexAttribute where
  | position
  | tangents
  | color
  | uv0
  | uv1
  | boneIndices
  | boneWeights
deriving DecidableEq

/-- Filament `VertexBuffer::AttributeType`, restricted to what the loader
produces: the three explicitly named types plus the table image of a dense
accessor (shape, component type). -/
inductive AttrType where
  | short4
  | ushort2
  | ubyte4
  | packed (sh : CAccShape) (ct : CComponentType)
deriving DecidableEq

/-- Filament `IndexBuffer::IndexType` as used here. -/
inductive IndexType where
  | ushort
  | uint
deriving DecidableEq

/-- Filament `RenderableManager::PrimitiveType`. -/
inductive PrimType where
  | points
  | lines
  | triangles
deriving DecidableEq

/-- Modelled from the spec: `getPrimitiveType` (GltfEnums.h, not under src/).
Maps supported document topologies to renderer primitive types; strips,
loops and fans are the "unsupported primitive topology" failure case. -/
def getPrimitiveType : CTopology → Option PrimType
  | .points => some .points
  | .lines => some .lines
  | .triangles => some .triangles
  | _ => none

/-- Modelled from the spec: `getIndexType` (GltfEnums.h, not under src/).
8-bit and 16-bit unsigned indices map to USHORT (the caller widens 8-bit
data), 32-bit unsigned to UINT; every other component type is the
"unsupported index component type" failure case. -/
def getIndexType : CComponentType → Option IndexType
  | .r8u => some .ushort
  | .r16u => some .ushort
  | .r32u => some .uint
  | _ => none

/-- Modelled from the spec: `getVertexAttrType` (GltfEnums.h, not under src/).
Translates document attribute semantics into renderer semantics; the
`invalid` semantic is the unrecognized-vertex-semantic failure case.
(Normals and tangents are intercepted by the loader before this table
is consulted.) -/
def getVertexAttrType : CAttributeType → Option VertexAttribute
  | .position => some .position
  | .texcoord => some .uv0
  | .color => some .color
  | .joints => some .boneIndices
  | .weights => some .boneWeights
  | _ => none

/-- Modelled from the spec: `getElementType` (GltfEnums.h, not under src/).
Every dense vector-shaped accessor has a renderer attribute type; matrix
shapes are the "unsupported vertex component type/shape" failure case. -/
def getElementType (sh : CAccShape) (ct : CComponentType) : Option AttrType :=
  match sh with
  | .mat2 => none
  | .mat3 => none
  | .mat4 => none
  | s => some (.packed s ct)

/-- `UvSet` (MaterialProvider): one of Filament's two texcoord sets, or
dropped. -/
inductive UvSet where
  | unused
  | uv0set
  | uv1set
deriving DecidableEq

/-- `UvMap`: mapping from document texcoord slots (0..7) to UvSet, modelled
as a list read with default `unused`. -/
abbrev UvMap := List UvSet

/-- Read `uvmap[i]`. -/
def getUv (m : UvMap) (i : Nat) : UvSet := m.getD i .unused

/-- `BufferBinding` (FFilamentAsset.h): deferred buffer-population
descriptor.  `uri = none` / `data = none` model null pointers produced by
value-initialized fields. -/
structure BufferBinding where
  uri : Option String
  totalSize : Nat
  bufferIndex : Nat
  offset : Nat
  size : Nat
  data : Option Nat
  vertexBuffer : Option Nat
  indexBuffer : Option Nat
  convertBytesToShorts : Bool
  generateTrivialIndices : Bool
  generateDummyData : Bool
  generateTangents : Bool
deriving DecidableEq

/-- `Primitive` (AssetLoader.cpp, line 66): cached VertexBuffer/IndexBuffer
pair plus object-space box. -/
structure Primitive where
  vertices : Option Nat
  indices : Option Nat
  aabb : Aabb
deriving DecidableEq

/-- Default-constructed `Primitive` (null buffers, default box). -/
def defaultPrimitive : Primitive :=
  { vertices := none, indices := none, aabb := emptyAabb }

end Gltfio

namespace Gltfio

/-- Loader configuration: the MaterialProvider kind (`getSource()`) and the
diagnostics toggle. -/
inductive MatSource where
  | loadUbershaders
  | generateShaders
deriving DecidableEq

structure LoaderConfig where
  matSource : MatSource
  diagnostics : Bool
deriving DecidableEq

/-- First-match association-list lookup (models `tsl::robin_map::find`). -/
def alookup {β : Type} : List (Nat × β) → Nat → Option β
  | [], _ => none
  | (k2, v) :: rest, k => if k2 = k then some v else alookup rest k

/-- Overwriting association-list assignment (models `map[key] = value`). -/
def aset {β : Type} : List (Nat × β) → Nat → β → List (Nat × β)
  | [], k, v => [(k, v)]
  | (k2, w) :: rest, k, v =>
      if k2 = k then (k2, v) :: rest else (k2, w) :: aset rest k v

/-- One `vbb.attribute(semantic, slot, atype)` declaration (with its
`vbb.normalized(semantic)` companion when issued). -/
structure LayoutEntry where
  semantic : VertexAttribute
  slot : Nat
  atype : AttrType
  normalized : Bool
deriving DecidableEq

/-- Accumulator of the first attribute pass of `createPrimitive`
(AssetLoader.cpp, lines 408-489): running slot counter, the three
has-flags, last assigned `vertexCount`, the object-space box written
through `outPrim`, and the attribute declarations made on the
vertex-buffer builder. -/
structure Pass1Acc where
  slot : Nat
  hasUv0 : Bool
  hasUv1 : Bool
  hasVertexColor : Bool
  vertexCount : Nat
  aabb : Aabb
  layout : List LayoutEntry
deriving DecidableEq

/-- Initial accumulator; the box starts from the (cached) `outPrim->aabb`. -/
def initialPass1 (aabb0 : Aabb) : Pass1Acc :=
  { slot := 0
    hasUv0 := false
    hasUv1 := false
    hasVertexColor := false
    vertexCount := 0
    aabb := aabb0
    layout := [] }

/-- Body of the first attribute loop (lines 411-487).  `Except` carries the
partially updated accumulator when the iteration hits one of the three
`return false` paths (unrecognized semantic, unsupported element type,
sparse accessor), since the mutations made before the return (color flag,
vertexCount, `outPrim->aabb` expansion) persist in C++. -/
def scanAttribute (uvmap : UvMap) (acc : Pass1Acc) (a : CAttribute) :
    Except Pass1Acc Pass1Acc :=
  if a.type = .normal then
    -- Re-purpose the normals slot for the later-computed quaternions.
    .ok { acc with
          slot := acc.slot + 1
          layout := acc.layout ++ [⟨.tangents, acc.slot, .short4, true⟩] }
  else if a.type = .tangent then
    -- glTF tangent data is ignored here, honored in ResourceLoader.
    .ok acc
  else
    let acc := if a.type = .color then { acc with hasVertexColor := true } else acc
    match getVertexAttrType a.type with
    | none => .error acc   -- "Unrecognized vertex semantic."
    | some semantic0 =>
      let uvset := getUv uvmap a.index
      if a.type = .texcoord ∧ uvset = .unused then
        -- Unused texture coordinate sets are dropped.
        .ok acc
      else
        let pair :=
          if a.type = .texcoord then
            match uvset with
            | .uv0set => (VertexAttribute.uv0, { acc with hasUv0 := true })
            | .uv1set => (VertexAttribute.uv1, { acc with hasUv1 := true })
            | .unused => (semantic0, acc)
          else (semantic0, acc)
        let semantic := pair.1
        let acc := pair.2
        let acc := { acc with vertexCount := a.data.count }
        let acc :=
          if a.type = .position then
            { acc with
              aabb := { min := vmin acc.aabb.min a.data.minv
                        max := vmax acc.aabb.max a.data.maxv } }
          else acc
        match getElementType a.data.shape a.data.componentType with
        | none => .error acc   -- "Unsupported accessor type."
        | some atype =>
          if a.data.isSparse then .error acc   -- "Sparse accessors not yet supported."
          else
            .ok { acc with
                  slot := acc.slot + 1
                  layout := acc.layout ++ [⟨semantic, acc.slot, atype, a.data.normalized⟩] }

/-- The first attribute pass over the whole attribute list. -/
def scanAttributes (uvmap : UvMap) (acc : Pass1Acc) :
    List CAttribute → Except Pass1Acc Pass1Acc
  | [] => .ok acc
  | a :: rest =>
    match scanAttribute uvmap acc a with
    | .error accP => .error accP
    | .ok acc2 => scanAttributes uvmap acc2 rest

/-- The ubershader dummy-attribute block (lines 494-511): for each of
UV0 / UV1 / COLOR that is missing, declare a dummy attribute at the current
slot; all of them share that one slot, which is consumed once at the end
when any dummy data is needed. -/
def applyDummy (cfg : LoaderConfig) (acc : Pass1Acc) : Bool × Pass1Acc :=
  if cfg.matSource = .loadUbershaders then
    let p1 :=
      if acc.hasUv0 then (false, acc)
      else (true, { acc with layout := acc.layout ++ [⟨.uv0, acc.slot, .ushort2, false⟩] })
    let p2 :=
      if acc.hasUv1 then p1
      else (true, { p1.2 with layout := p1.2.layout ++ [⟨.uv1, p1.2.slot, .ushort2, false⟩] })
    let p3 :=
      if acc.hasVertexColor then p2
      else (true, { p2.2 with layout := p2.2.layout ++ [⟨.color, p2.2.slot, .ubyte4, true⟩] })
    if p3.1 then (true, { p3.2 with slot := p3.2.slot + 1 }) else (false, p3.2)
  else (false, acc)

/-- First pass plus dummy block: the final vertex layout and
`needsDummyData` flag, or `none` when the pass aborts the primitive. -/
def finalLayout (cfg : LoaderConfig) (uvmap : UvMap) (attrs : List CAttribute)
    (aabb0 : Aabb) : Option (Bool × Pass1Acc) :=
  match scanAttributes uvmap (initialPass1 aabb0) attrs with
  | .error _ => none
  | .ok acc => some (applyDummy cfg acc)

/-- The `bufferCount` handed to `vbb.bufferCount` (line 513-514), i.e. the
slot counter after the first pass and the dummy block. -/
def vertexSlotCount (cfg : LoaderConfig) (uvmap : UvMap)
    (attrs : List CAttribute) (aabb0 : Aabb) : Nat :=
  match finalLayout cfg uvmap attrs aabb0 with
  | none => 0
  | some (_, acc) => acc.slot

/-- Body of the second attribute loop (lines 520-557): the emitted
buffer-binding descriptors for one attribute and the new slot counter. -/
def emitAttribute (uvmap : UvMap) (vb : Nat) (slot : Nat) (a : CAttribute) :
    List BufferBinding × Nat :=
  if a.type = .tangent ∨ (a.type = .texcoord ∧ getUv uvmap a.index = .unused) then
    ([], slot)
  else if a.type = .normal then
    ([{ uri := a.data.bufferView.buffer.uri,
        totalSize := a.data.bufferView.buffer.size,
        bufferIndex := slot,
        offset := 0,
        size := 0,
        data := none,
        vertexBuffer := some vb,
        indexBuffer := none,
        convertBytesToShorts := false,
        generateTrivialIndices := false,
        generateDummyData := false,
        generateTangents := true }], slot + 1)
  else
    ([{ uri := a.data.bufferView.buffer.uri,
        totalSize := a.data.bufferView.buffer.size,
        bufferIndex := slot,
        offset := computeBindingOffset a.data,
        size := computeBindingSize a.data,
        data := some a.data.bufferView.buffer.id,
        vertexBuffer := some vb,
        indexBuffer := none,
        convertBytesToShorts := false,
        generateTrivialIndices := false,
        generateDummyData := false,
        generateTangents := false }], slot + 1)

/-- The second attribute pass over the whole attribute list. -/
def emitAttributes (uvmap : UvMap) (vb : Nat) (slot : Nat) :
    List CAttribute → List BufferBinding × Nat
  | [] => ([], slot)
  | a :: rest =>
    let p := emitAttribute uvmap vb slot a
    let q := emitAttributes uvmap vb p.2 rest
    (p.1 ++ q.1, q.2)

/-- The dummy-data descriptor (lines 559-573). -/
def dummyBinding (vb slot vertexCount : Nat) : BufferBinding :=
  { uri := some "",
    totalSize := 4 * vertexCount,
    bufferIndex := slot,
    offset := 0,
    size := 4 * vertexCount,
    data := none,
    vertexBuffer := some vb,
    indexBuffer := none,
    convertBytesToShorts := false,
    generateTrivialIndices := false,
    generateDummyData := true,
    generateTangents := false }

/-- The descriptor referencing a supplied index stream (lines 382-391). -/
def indexStreamBinding (iacc : CAccessor) (ib : Nat) : BufferBinding :=
  { uri := iacc.bufferView.buffer.uri,
    totalSize := iacc.bufferView.buffer.size,
    bufferIndex := 0,
    offset := computeBindingOffset iacc,
    size := computeBindingSize iacc,
    data := some iacc.bufferView.buffer.id,
    vertexBuffer := none,
    indexBuffer := some ib,
    convertBytesToShorts := decide (iacc.componentType = .r8u),
    generateTrivialIndices := false,
    generateDummyData := false,
    generateTangents := false }

/-- The descriptor for a synthesized trivial index buffer (lines 398-402):
no source URI, no source data pointer, size = vertexCount * sizeof(uint32). -/
def trivialIndexBinding (ib vertexCount : Nat) : BufferBinding :=
  { uri := none,
    totalSize := 0,
    bufferIndex := 0,
    offset := 0,
    size := vertexCount * 4,
    data := none,
    vertexBuffer := none,
    indexBuffer := some ib,
    convertBytesToShorts := false,
    generateTrivialIndices := true,
    generateDummyData := false,
    generateTangents := false }

end Gltfio

namespace Gltfio

/-- `AlphaMode` (both the cgltf enum and the MaterialProvider enum; the
switch at lines 651-661 maps the former onto the latter one-to-one). -/
inductive AlphaMode where
  | opq
  | mask
  | blend
deriving DecidableEq

/-- One `cgltf_texture_view` as read by `createMaterialInstance`:
whether a texture is attached, its texcoord set, and whether it declares
a (non-identity) UV transform. -/
structure CTextureView where
  hasTexture : Bool
  texcoord : Nat
  hasTransform : Bool
deriving DecidableEq

/-- `cgltf_material` content, restricted to the fields that determine the
MaterialKey (lines 602-661).  The factor values and sampler details that
feed only `setParameter` / `addTextureBinding` (lines 668-742) are not
modelled; no claim mentions them. -/
structure CMaterial where
  name : Option String
  doubleSided : Bool
  unlit : Bool
  alphaMode : AlphaMode
  hasPbrSpecularGlossiness : Bool
  baseColorTexture : CTextureView
  metallicRoughnessTexture : CTextureView
  sgDiffuseTexture : CTextureView
  sgSpecularGlossinessTexture : CTextureView
  normalTexture : CTextureView
  occlusionTexture : CTextureView
  emissiveTexture : CTextureView
deriving DecidableEq

/-- A reference to a material document object: its address (`ptr`, the
cache-identity the C++ code XORs) together with the object's content. -/
structure MatRef where
  ptr : Nat
  mat : CMaterial
deriving DecidableEq

/-- Modelled from the spec: `MaterialKey` (MaterialProvider.h, not under
src/) with exactly the fields assigned at lines 617-661. -/
structure MaterialKey where
  doubleSided : Bool
  unlit : Bool
  hasVertexColors : Bool
  hasBaseColorTexture : Bool
  hasNormalTexture : Bool
  hasOcclusionTexture : Bool
  hasEmissiveTexture : Bool
  useSpecularGlossiness : Bool
  alphaMode : AlphaMode
  enableDiagnostics : Bool
  hasMetallicRoughnessTexture : Bool
  metallicRoughnessUV : Nat
  baseColorUV : Nat
  emissiveUV : Nat
  aoUV : Nat
  normalUV : Nat
  hasTextureTransforms : Bool
  hasSpecularGlossinessTexture : Bool
  specularGlossinessUV : Nat
deriving DecidableEq

/-- The value-initialized `MaterialKey { .unlit = true }` used for the null
material (lines 593-595): every other field is zero / false / OPAQUE. -/
def defaultKeyUnlit : MaterialKey :=
  { doubleSided := false
    unlit := true
    hasVertexColors := false
    hasBaseColorTexture := false
    hasNormalTexture := false
    hasOcclusionTexture := false
    hasEmissiveTexture := false
    useSpecularGlossiness := false
    alphaMode := .opq
    enableDiagnostics := false
    hasMetallicRoughnessTexture := false
    metallicRoughnessUV := 0
    baseColorUV := 0
    emissiveUV := 0
    aoUV := 0
    normalUV := 0
    hasTextureTransforms := false
    hasSpecularGlossinessTexture := false
    specularGlossinessUV := 0 }

/-- MaterialKey construction for a non-null material (lines 602-661),
including the specular-glossiness overrides and the alpha-mode switch. -/
def buildMatKey (cfg : LoaderConfig) (m : CMaterial) (vertexColor : Bool) :
    MaterialKey :=
  let hasTextureTransforms :=
    m.sgDiffuseTexture.hasTransform || m.sgSpecularGlossinessTexture.hasTransform ||
    m.baseColorTexture.hasTransform || m.metallicRoughnessTexture.hasTransform ||
    m.normalTexture.hasTransform || m.occlusionTexture.hasTransform ||
    m.emissiveTexture.hasTransform
  let matkey : MaterialKey :=
    { doubleSided := m.doubleSided
      unlit := m.unlit
      hasVertexColors := vertexColor
      hasBaseColorTexture := m.baseColorTexture.hasTexture
      hasNormalTexture := m.normalTexture.hasTexture
      hasOcclusionTexture := m.occlusionTexture.hasTexture
      hasEmissiveTexture := m.emissiveTexture.hasTexture
      useSpecularGlossiness := false
      alphaMode := .opq
      enableDiagnostics := cfg.diagnostics
      hasMetallicRoughnessTexture := m.metallicRoughnessTexture.hasTexture
      metallicRoughnessUV := m.metallicRoughnessTexture.texcoord
      baseColorUV := m.baseColorTexture.texcoord
      emissiveUV := m.emissiveTexture.texcoord
      aoUV := m.occlusionTexture.texcoord
      normalUV := m.normalTexture.texcoord
      hasTextureTransforms := hasTextureTransforms
      hasSpecularGlossinessTexture := false
      specularGlossinessUV := 0 }
  let matkey :=
    if m.hasPbrSpecularGlossiness then
      let matkey := { matkey with useSpecularGlossiness := true }
      let matkey :=
        if m.sgDiffuseTexture.hasTexture then
          { matkey with
            hasBaseColorTexture := true
            baseColorUV := m.sgDiffuseTexture.texcoord }
        else matkey
      if m.sgSpecularGlossinessTexture.hasTexture then
        { matkey with
          hasSpecularGlossinessTexture := true
          specularGlossinessUV := m.sgSpecularGlossinessTexture.texcoord }
      else matkey
    else matkey
  { matkey with alphaMode := m.alphaMode }

/-- Texcoord slots referenced by the textures a MaterialKey declares, in
field order. -/
def usedUvSlots (k : MaterialKey) : List Nat :=
  (if k.hasBaseColorTexture then [k.baseColorUV] else []) ++
  (if k.hasMetallicRoughnessTexture then [k.metallicRoughnessUV] else []) ++
  (if k.hasNormalTexture then [k.normalUV] else []) ++
  (if k.hasOcclusionTexture then [k.aoUV] else []) ++
  (if k.hasEmissiveTexture then [k.emissiveUV] else [])

/-- Modelled from the spec: the definitive `UvMap` chosen by the Material
Provider collaborator (at most two document texcoord slots are retained;
the first two distinct referenced slots map to UV0 and UV1, every other
slot is UNUSED). -/
def providerUvMap (k : MaterialKey) : UvMap :=
  let used := (usedUvSlots k).dedup
  (List.range 8).map fun i =>
    if used.head? = some i then UvSet.uv0set
    else if used.get? 1 = some i then UvSet.uv1set
    else UvSet.unused

/-- `MaterialEntry` (AssetLoader.cpp, line 80): cached instance + UvMap. -/
structure MaterialEntry where
  inst : Nat
  uvmap : UvMap
deriving DecidableEq

end Gltfio

namespace Gltfio

/-- One `vbb.build` call (ghost observation): the handle returned, the
`bufferCount` and `vertexCount` set on the builder, and the attribute
declarations. -/
structure VBBuild where
  handle : Nat
  bufferCount : Nat
  vertexCount : Nat
  layout : List LayoutEntry
deriving DecidableEq

/-- One successful `builder.geometry(index, primType, vertices, indices)`
call (ghost observation).  `primType = none` models the C++ variable left
uninitialized when `getPrimitiveType` failed. -/
structure RenderGeom where
  primIndex : Nat
  primType : Option PrimType
  vertices : Nat
  indices : Nat
deriving DecidableEq

/-- `cgltf_primitive`, restricted to what the loader reads. -/
structure CPrimitive where
  topology : CTopology
  material : Option MatRef
  attributes : List CAttribute
  indices : Option CAccessor
deriving DecidableEq

/-- `cgltf_mesh`: identity (`id` models the object address), name,
primitives. -/
structure CMesh where
  id : Nat
  name : Option String
  primitives : List CPrimitive
deriving DecidableEq

/-- One renderable built by `createRenderable` (ghost observation): the
entity, the mesh (identity and content) and the geometry attached. -/
structure RenderRec where
  entity : Nat
  mesh : CMesh
  geom : List RenderGeom
deriving DecidableEq


/-- The mutable state of one import: the fields of the `FFilamentAsset`
being built (entities, node map, binding and buffer lists, instances,
skins are assembled separately, bounding box) together with the loader's
transient per-import state (`mMatInstanceCache`, `mMeshCache`, `mError`)
and a fresh-handle counter plus ghost observation logs. -/
structure LoaderState where
  fresh : Nat
  entities : List Nat
  nodeMap : List (Nat × Nat)
  bufferBindings : List BufferBinding
  vertexBuffers : List Nat
  indexBuffers : List (Nat × Nat × IndexType)
  materialInstances : List Nat
  matCache : List (Nat × MaterialEntry)
  meshCache : List (Nat × List Primitive)
  bbox : Aabb
  error : Bool
  root : Option Nat
  vbBuilds : List VBBuild
  buildLog : List (Nat × Nat)
  contribLog : List Aabb
  renderLog : List RenderRec
deriving DecidableEq

/-- Allocating one engine-side object (entity, buffer, instance). -/
def alloc (st : LoaderState) : Nat × LoaderState :=
  (st.fresh, { st with fresh := st.fresh + 1 })

/-- The state of a freshly constructed loader / freshly reset import. -/
def initState : LoaderState :=
  { fresh := 0
    entities := []
    nodeMap := []
    bufferBindings := []
    vertexBuffers := []
    indexBuffers := []
    materialInstances := []
    matCache := []
    meshCache := []
    bbox := emptyAabb
    error := false
    root := none
    vbBuilds := []
    buildLog := []
    contribLog := []
    renderLog := [] }

/-- Modelled from the spec: `MaterialProvider::createMaterialInstance`
(external collaborator).  Creates a new material instance on every call
(base-material caching is internal to the provider) and decides the
definitive UvMap from the key. -/
def providerCreateInstance (st : LoaderState) (k : MaterialKey) :
    Nat × UvMap × LoaderState :=
  let p := alloc st
  (p.1, providerUvMap k, p.2)

/-- The cache key of line 584: the material object address XORed with the
vertex-color bit (a null material contributes address 0). -/
def matCacheKey (inputMat : Option MatRef) (vertexColor : Bool) : Nat :=
  (match inputMat with
    | none => 0
    | some m => m.ptr) ^^^ (if vertexColor then 1 else 0)

/-- `FAssetLoader::createMaterialInstance` (lines 582-746).  Returns the
instance, the UvMap written through the out-parameter, and the updated
state.  Note the store for the null material goes to key `0`
(line 598) while the lookup uses `key = ptr ^ vertexColor` (line 584);
parameter/factor assignment and texture bindings (lines 668-742) touch
only provider-side state that no claim mentions and are not modelled. -/
def createMaterialInstance (cfg : LoaderConfig) (st : LoaderState)
    (inputMat : Option MatRef) (vertexColor : Bool) :
    Nat × UvMap × LoaderState :=
  let key := matCacheKey inputMat vertexColor
  match alookup st.matCache key with
  | some e => (e.inst, e.uvmap, st)
  | none =>
    match inputMat with
    | none =>
      let matkey := defaultKeyUnlit
      let r := providerCreateInstance st matkey
      let mi := r.1
      let uvmap := r.2.1
      let st := r.2.2
      let st := { st with
                  materialInstances := st.materialInstances ++ [mi]
                  matCache := aset st.matCache 0 { inst := mi, uvmap := uvmap } }
      (mi, uvmap, st)
    | some m =>
      let matkey := buildMatKey cfg m.mat vertexColor
      let r := providerCreateInstance st matkey
      let mi := r.1
      let uvmap := r.2.1
      let st := r.2.2
      let st := { st with
                  materialInstances := st.materialInstances ++ [mi]
                  matCache := aset st.matCache key { inst := mi, uvmap := uvmap } }
      (mi, uvmap, st)

/-- Fallback accessor for the out-of-bounds read `inPrim->attributes[0]`
on a primitive with no attributes (well-formed glTF always has at least
one attribute, so this value is never observed on real documents). -/
def defaultAccessor : CAccessor :=
  { componentType := .r32f
    shape := .vec3
    count := 0
    stride := 0
    offset := 0
    bufferView := { offset := 0, buffer := { id := 0, uri := none, size := 0 } }
    normalized := false
    isSparse := false
    minv := ⟨0, 0, 0⟩
    maxv := ⟨0, 0, 0⟩ }

def defaultAttribute : CAttribute :=
  { type := .invalid, index := 0, data := defaultAccessor }

/-- The vertex-buffer half of `createPrimitive` (lines 406-579): first
attribute pass, dummy block, `vbb.build`, second attribute pass, dummy
descriptor.  `ib` is the index buffer built by the first half; on a pass-1
failure only the box mutations written through `outPrim` survive. -/
def vertexPart (cfg : LoaderConfig) (st : LoaderState) (inPrim : CPrimitive)
    (outPrim : Primitive) (uvmap : UvMap) (ib : Nat) :
    Bool × LoaderState × Primitive :=
  match scanAttributes uvmap (initialPass1 outPrim.aabb) inPrim.attributes with
  | .error accP => (false, st, { outPrim with aabb := accP.aabb })
  | .ok acc1 =>
    let d := applyDummy cfg acc1
    let needsDummy := d.1
    let acc2 := d.2
    let bufferCount := acc2.slot
    let pvb := alloc st
    let vb := pvb.1
    let st := pvb.2
    let build : VBBuild :=
      { handle := vb, bufferCount := bufferCount,
        vertexCount := acc2.vertexCount, layout := acc2.layout }
    let st := { st with
                vbBuilds := st.vbBuilds ++ [build]
                vertexBuffers := st.vertexBuffers ++ [vb] }
    let e := emitAttributes uvmap vb 0 inPrim.attributes
    let st := { st with bufferBindings := st.bufferBindings ++ e.1 }
    let st :=
      if needsDummy then
        { st with bufferBindings :=
            st.bufferBindings ++ [dummyBinding vb e.2 acc2.vertexCount] }
      else st
    -- assert(bufferCount == slot) holds here; see the descriptor theorems.
    (true, st, { outPrim with
                 aabb := acc2.aabb
                 vertices := some vb
                 indices := some ib })

/-- `FAssetLoader::createPrimitive` (lines 364-580).  `meshId` / `primIndex`
identify the primitive for the ghost build log only.  Returns the C++
boolean result, the updated state, and the `Primitive` written through
`outPrim`. -/
def createPrimitive (cfg : LoaderConfig) (st : LoaderState)
    (meshId primIndex : Nat) (inPrim : CPrimitive) (outPrim : Primitive)
    (uvmap : UvMap) : Bool × LoaderState × Primitive :=
  let st := { st with buildLog := st.buildLog ++ [(meshId, primIndex)] }
  match inPrim.indices with
  | some iacc =>
    match getIndexType iacc.componentType with
    | none => (false, st, outPrim)   -- "Unrecognized index type."
    | some itype =>
      let pib := alloc st
      let ib := pib.1
      let st := pib.2
      let st := { st with
                  bufferBindings := st.bufferBindings ++ [indexStreamBinding iacc ib]
                  indexBuffers := st.indexBuffers ++ [(ib, iacc.count, itype)] }
      vertexPart cfg st inPrim outPrim uvmap ib
  | none =>
    let vertexCount := (inPrim.attributes.headD defaultAttribute).data.count
    let pib := alloc st
    let ib := pib.1
    let st := pib.2
    let st := { st with
                bufferBindings := st.bufferBindings ++ [trivialIndexBinding ib vertexCount]
                indexBuffers := st.indexBuffers ++ [(ib, vertexCount, .uint)] }
    vertexPart cfg st inPrim outPrim uvmap ib

/-- `FAssetLoader::primitiveHasVertexColor` (lines 797-805). -/
def primitiveHasVertexColor (inPrim : CPrimitive) : Bool :=
  inPrim.attributes.any fun a => a.type = .color

end Gltfio

namespace Gltfio

/-- Modelled from the spec: `composeMatrix` (gltfio math.h, not under src/):
local transform composed from translation, rotation quaternion (x,y,z,w)
and scale, as a column-major 4x4 matrix. -/
def composeMatrix (t : Vec3) (r : Vec4) (s : Vec3) : Mat4 :=
  { c0 := ⟨(1 - 2 * (r.y * r.y + r.z * r.z)) * s.x,
           (2 * (r.x * r.y + r.z * r.w)) * s.x,
           (2 * (r.x * r.z - r.y * r.w)) * s.x, 0⟩
    c1 := ⟨(2 * (r.x * r.y - r.z * r.w)) * s.y,
           (1 - 2 * (r.x * r.x + r.z * r.z)) * s.y,
           (2 * (r.y * r.z + r.x * r.w)) * s.y, 0⟩
    c2 := ⟨(2 * (r.x * r.z + r.y * r.w)) * s.z,
           (2 * (r.y * r.z - r.x * r.w)) * s.z,
           (1 - 2 * (r.x * r.x + r.y * r.y)) * s.z, 0⟩
    c3 := ⟨t.x, t.y, t.z, 1⟩ }

/-- `cgltf_node` payload: identity (`id` models the node address), the
local transform inputs (lines 251-259), the optional mesh and the optional
skin (by document skin index; only its presence and joint count matter to
the traversal). -/
structure CNodeData where
  id : Nat
  hasMatrix : Bool
  matrix : Mat4
  translation : Vec3
  rotation : Vec4
  scale : Vec3
  mesh : Option CMesh
  skin : Option Nat
deriving DecidableEq

/-- The local transform of a node (lines 251-259): the supplied matrix if
`has_matrix`, otherwise the composed TRS matrix. -/
def localTransform (d : CNodeData) : Mat4 :=
  if d.hasMatrix then d.matrix else composeMatrix d.translation d.rotation d.scale

/-- A forest of document nodes.  `cons data children siblings` is the node
list `node(data, children) :: siblings`; this first-child / next-sibling
form keeps every recursion structural.  A glTF scene's root list and every
node's children list are such forests. -/
inductive CForest where
  | nil : CForest
  | cons (data : CNodeData) (children : CForest) (siblings : CForest) : CForest
deriving DecidableEq

/-- Transform the eight corners of a box and re-bound them
(lines 334-344). -/
def transformAabb (m : Mat4) (b : Aabb) : Aabb :=
  let pa := mulVec m ⟨b.min.x, b.min.y, b.min.z, 1⟩
  let pb := mulVec m ⟨b.min.x, b.min.y, b.max.z, 1⟩
  let pc := mulVec m ⟨b.min.x, b.max.y, b.min.z, 1⟩
  let pd := mulVec m ⟨b.min.x, b.max.y, b.max.z, 1⟩
  let pe := mulVec m ⟨b.max.x, b.min.y, b.min.z, 1⟩
  let pf := mulVec m ⟨b.max.x, b.min.y, b.max.z, 1⟩
  let pg := mulVec m ⟨b.max.x, b.max.y, b.min.z, 1⟩
  let ph := mulVec m ⟨b.max.x, b.max.y, b.max.z, 1⟩
  let q := fun (v : Vec4) => (⟨v.x, v.y, v.z⟩ : Vec3)
  let minpt := vmin (vmin (vmin (vmin (vmin (vmin (vmin (q pa) (q pb)) (q pc)) (q pd)) (q pe)) (q pf)) (q pg)) (q ph)
  let maxpt := vmax (vmax (vmax (vmax (vmax (vmax (vmax (q pa) (q pb)) (q pc)) (q pd)) (q pe)) (q pf)) (q pg)) (q ph)
  { min := minpt, max := maxpt }

/-- Write primitive `p` of mesh `mid` in the mesh cache (the C++ loop
mutates the cache entry in place through `outputPrim`). -/
def writeMeshPrim (cache : List (Nat × List Primitive)) (mid p : Nat)
    (pr : Primitive) : List (Nat × List Primitive) :=
  match alookup cache mid with
  | none => cache
  | some l => aset cache mid (l.set p pr)

/-- The body of the per-primitive loop of `createRenderable`
(lines 305-332), iterated over the remaining primitives; `p` is the
current primitive index, `aabb` the renderable's accumulating object-space
box and `geom` the geometry attached so far. -/
def primLoop (cfg : LoaderConfig) (st : LoaderState) (mesh : CMesh)
    (p : Nat) (prims : List CPrimitive) (aabb : Aabb)
    (geom : List RenderGeom) : LoaderState × Aabb × List RenderGeom :=
  match prims with
  | [] => (st, aabb, geom)
  | inputPrim :: rest =>
    -- "Unsupported primitive type." is only logged: the error flag is not
    -- set, the primitive is not skipped, and primType stays uninitialized
    -- (modelled as `none`).
    let primType := getPrimitiveType inputPrim.topology
    let hasVertexColor := primitiveHasVertexColor inputPrim
    let rmi := createMaterialInstance cfg st inputPrim.material hasVertexColor
    let uvmap := rmi.2.1
    let st := rmi.2.2
    let outputPrim := ((alookup st.meshCache mesh.id).getD []).getD p defaultPrimitive
    if outputPrim.vertices = none then
      let rcp := createPrimitive cfg st mesh.id p inputPrim outputPrim uvmap
      let ok := rcp.1
      let st2 := rcp.2.1
      let out2 := rcp.2.2
      let st3 := { st2 with meshCache := writeMeshPrim st2.meshCache mesh.id p out2 }
      if ok then
        let aabb2 : Aabb := { min := vmin out2.aabb.min aabb.min
                              max := vmax out2.aabb.max aabb.max }
        let geom2 := geom ++ [{ primIndex := p, primType := primType,
                                vertices := out2.vertices.getD 0,
                                indices := out2.indices.getD 0 }]
        primLoop cfg st3 mesh (p + 1) rest aabb2 geom2
      else
        primLoop cfg { st3 with error := true } mesh (p + 1) rest aabb geom
    else
      let aabb2 : Aabb := { min := vmin outputPrim.aabb.min aabb.min
                            max := vmax outputPrim.aabb.max aabb.max }
      let geom2 := geom ++ [{ primIndex := p, primType := primType,
                              vertices := outputPrim.vertices.getD 0,
                              indices := outputPrim.indices.getD 0 }]
      primLoop cfg st mesh (p + 1) rest aabb2 geom2

/-- `FAssetLoader::createRenderable` (lines 278-362).  `world` is the
world transform of `entity` (accumulated parent chain, see
`TransformManager::getWorldTransform`).  The name-manager side effect
(lines 297-300) assigns a display name only and is not modelled. -/
def createRenderable (cfg : LoaderConfig) (st : LoaderState) (mesh : CMesh)
    (entity : Nat) (world : Mat4) : LoaderState :=
  let nprims := mesh.primitives.length
  let st :=
    match alookup st.meshCache mesh.id with
    | none =>
      { st with meshCache := aset st.meshCache mesh.id (List.replicate nprims defaultPrimitive) }
    | some _ => st
  let r := primLoop cfg st mesh 0 mesh.primitives emptyAabb []
  let st := r.1
  let aabb := r.2.1
  let geom := r.2.2
  let wbox := transformAabb world aabb
  { st with
    bbox := { min := vmin st.bbox.min wbox.min, max := vmax st.bbox.max wbox.max }
    contribLog := st.contribLog ++ [wbox]
    renderLog := st.renderLog ++ [{ entity := entity, mesh := mesh, geom := geom }] }

/-- The non-recursive part of `FAssetLoader::createEntity` (lines 247-271):
entity creation, transform component, entity list and node map updates,
and the renderable.  `world` is the node's accumulated world transform
(the TransformManager composes `parent world * local`; modelled from the
spec since TransformManager is an external component manager). -/
def createEntityStep (cfg : LoaderConfig) (st : LoaderState) (d : CNodeData)
    (world : Mat4) : LoaderState :=
  let pe := alloc st
  let entity := pe.1
  let st := pe.2
  let st := { st with
              entities := st.entities ++ [entity]
              nodeMap := aset st.nodeMap d.id entity }
  match d.mesh with
  | none => st
  | some mesh => createRenderable cfg st mesh entity world

/-- The recursion of `FAssetLoader::createEntity` over a node forest:
process the node, recurse into its children (with this node's world
transform as parent), then continue with the siblings. -/
def createEntityForest (cfg : LoaderConfig) (st : LoaderState)
    (parentWorld : Mat4) : CForest → LoaderState
  | .nil => st
  | .cons d children siblings =>
    let world := mulMat parentWorld (localTransform d)
    let st := createEntityStep cfg st d world
    let st := createEntityForest cfg st world children
    createEntityForest cfg st parentWorld siblings

/-- One traversed node together with its accumulated world transform. -/
structure FlatNode where
  data : CNodeData
  world : Mat4
deriving DecidableEq

/-- Depth-first flattening of a node forest with accumulated world
transforms (the traversal order of `createEntity`). -/
def flattenForest (parentWorld : Mat4) : CForest → List FlatNode
  | .nil => []
  | .cons d children siblings =>
    let world := mulMat parentWorld (localTransform d)
    { data := d, world := world } ::
      (flattenForest world children ++ flattenForest parentWorld siblings)

/-- Processing a flattened traversal node by node. -/
def processFlat (cfg : LoaderConfig) (st : LoaderState) :
    List FlatNode → LoaderState
  | [] => st
  | fn :: rest => processFlat cfg (createEntityStep cfg st fn.data fn.world) rest

/-- `cgltf_skin`: name and ordered joint node references (by node id). -/
structure CSkin where
  name : Option String
  joints : List Nat
deriving DecidableEq

/-- A glTF scene: its root nodes. -/
structure CScene where
  nodes : CForest
deriving DecidableEq

/-- The parsed document (`cgltf_data`), restricted to what `createAsset`
reads.  `nodeSkins` models the document's flat node array as read by the
skin-target pass (lines 232-239): for each node, its id and the index of
the skin it references, if any. -/
structure CDocument where
  scene : Option CScene
  scenes : List CScene
  skins : List CSkin
  nodeSkins : List (Nat × Option Nat)
deriving DecidableEq

/-- gltfio `Skin`: name, ordered joint entities, target entities. -/
structure Skin where
  name : Option String
  joints : List Nat
  targets : List Nat
deriving DecidableEq

/-- Resolve an ordered joint list through the node map; `none` models the
`std::out_of_range` thrown by `nodeMap.at` on a missing joint. -/
def resolveJoints (nodeMap : List (Nat × Nat)) : List Nat → Option (List Nat)
  | [] => some []
  | j :: rest =>
    match alookup nodeMap j, resolveJoints nodeMap rest with
    | some e, some es => some (e :: es)
    | _, _ => none

/-- `FAssetLoader::importSkinningData` (lines 786-795). -/
def importSkinningData (nodeMap : List (Nat × Nat)) (src : CSkin) :
    Option Skin :=
  match resolveJoints nodeMap src.joints with
  | none => none
  | some js => some { name := src.name, joints := js, targets := [] }

/-- Import every document skin (lines 226-229). -/
def importAllSkins (nodeMap : List (Nat × Nat)) :
    List CSkin → Option (List Skin)
  | [] => some []
  | s :: rest =>
    match importSkinningData nodeMap s, importAllSkins nodeMap rest with
    | some d, some ds => some (d :: ds)
    | _, _ => none

/-- Replace element `i` of a list, when in range. -/
def listModify {α : Type} (f : α → α) : Nat → List α → List α
  | _, [] => []
  | 0, x :: xs => f x :: xs
  | n + 1, x :: xs => x :: listModify f n xs

/-- The skin-target pass (lines 231-239): every node carrying a skin
reference appends its entity (node-map image, default entity on a miss,
as `operator[]` would produce) to that skin's target list. -/
def addSkinTargets (nodeMap : List (Nat × Nat)) (skins : List Skin) :
    List (Nat × Option Nat) → List Skin
  | [] => skins
  | (_, none) :: rest => addSkinTargets nodeMap skins rest
  | (nid, some si) :: rest =>
    let entity := (alookup nodeMap nid).getD 0
    addSkinTargets nodeMap
      (listModify (fun s => { s with targets := s.targets ++ [entity] }) si skins) rest

/-- The observable outcome of `createAsset` and its wrappers. -/
inductive ImportOutcome where
  /-- `mResult` is returned non-null, fully populated. -/
  | ok (asset : LoaderState) (skins : List Skin)
  /-- A null `FFilamentAsset*` is returned (parse failure in a wrapper). -/
  | nullResult
  /-- `mResult->mSkins.resize(...)` is executed with `mResult == nullptr`
  (line 226 after the rollback at lines 219-222): undefined behavior, the
  function never returns normally. -/
  | nullDeref
  /-- `mResult->mNodeMap.at(joint)` threw (line 793): a skin joint was not
  reached by the scene traversal. -/
  | jointNotFound
deriving DecidableEq

/-- The state right before the scene traversal: a fresh result, plus the
root entity when a scene exists. -/
def traversalStart (doc : CDocument) : LoaderState :=
  match doc.scene.orElse (fun _ => doc.scenes.head?) with
  | none => initState
  | some _ =>
    let pr := alloc initState
    { pr.2 with root := some pr.1 }

/-- The per-document flattened traversal (empty when there is no scene). -/
def flatDoc (doc : CDocument) : List FlatNode :=
  match doc.scene.orElse (fun _ => doc.scenes.head?) with
  | none => []
  | some scene => flattenForest identityMat4 scene.nodes

/-- The loader state after the scene traversal of `createAsset`
(lines 196-217), before the error check. -/
def runDoc (cfg : LoaderConfig) (doc : CDocument) : LoaderState :=
  match doc.scene.orElse (fun _ => doc.scenes.head?) with
  | none => initState
  | some scene =>
    let pr := alloc initState
    let st := { pr.2 with root := some pr.1 }
    createEntityForest cfg st identityMat4 scene.nodes

/-- `FAssetLoader::createAsset` (lines 196-245).  On `mError` the result is
deleted and nulled (lines 219-222), after which control still reaches
`mResult->mSkins.resize(...)` (line 226): that null dereference is the
`nullDeref` outcome. -/
def createAsset (cfg : LoaderConfig) (doc : CDocument) : ImportOutcome :=
  match doc.scene.orElse (fun _ => doc.scenes.head?) with
  | none => ImportOutcome.ok initState []
  | some _ =>
    let st := runDoc cfg doc
    if st.error then ImportOutcome.nullDeref
    else
      match importAllSkins st.nodeMap doc.skins with
      | none => ImportOutcome.jointNotFound
      | some skins => ImportOutcome.ok st (addSkinTargets st.nodeMap skins doc.nodeSkins)

/-- `createAssetFromJson` (lines 161-170): a parse failure returns null,
otherwise the outcome of `createAsset`.  (Parsing itself is the external
cgltf collaborator; its result is taken as input.) -/
def createAssetFromJson (cfg : LoaderConfig) (parsed : Option CDocument) :
    ImportOutcome :=
  match parsed with
  | none => ImportOutcome.nullResult
  | some doc => createAsset cfg doc

end Gltfio

namespace Gltfio

/-- Box containment: `outer` contains `inner`. -/
def aabbContains (outer inner : Aabb) : Prop :=
  outer.min.x ≤ inner.min.x ∧ outer.min.y ≤ inner.min.y ∧ outer.min.z ≤ inner.min.z ∧
  inner.max.x ≤ outer.max.x ∧ inner.max.y ≤ outer.max.y ∧ inner.max.z ≤ outer.max.z

instance (outer inner : Aabb) : Decidable (aabbContains outer inner) := by
  unfold aabbContains; infer_instance

/-- Invariant of the material-instance cache: every cached instance was
allocated below the fresh counter, and lookups under distinct keys yield
distinct instances. -/
def MatCacheInv (st : LoaderState) : Prop :=
  (∀ k e, alookup st.matCache k = some e → e.inst < st.fresh) ∧
  (∀ k1 k2 e1 e2, alookup st.matCache k1 = some e1 →
    alookup st.matCache k2 = some e2 → k1 ≠ k2 → e1.inst ≠ e2.inst)

/-- Pointer coherence for meshes in a traversal: equal mesh addresses mean
equal mesh objects (automatic in C++, where a `cgltf_mesh*` determines its
pointee). -/
def MeshCoherent (ns : List FlatNode) : Prop :=
  ∀ n1 ∈ ns, ∀ n2 ∈ ns, ∀ m1 m2, n1.data.mesh = some m1 → n2.data.mesh = some m2 →
    m1.id = m2.id → m1 = m2

/-- Fallback primitive for out-of-range reads in specifications. -/
def defaultCPrimitive : CPrimitive :=
  { topology := .points, material := none, attributes := [], indices := none }

/-- The geometry entries attached for primitives `p, ..., p + len - 1` of
`mesh` when each is resolved from cache entry list `l`. -/
def geomOfFrom (mesh : CMesh) (l : List Primitive) (p len : Nat) :
    List RenderGeom :=
  (List.range len).map fun i =>
    { primIndex := p + i
      primType := getPrimitiveType ((mesh.primitives.getD (p + i) defaultCPrimitive).topology)
      vertices := ((l.getD (p + i) defaultPrimitive).vertices).getD 0
      indices := ((l.getD (p + i) defaultPrimitive).indices).getD 0 }

/-- The geometry list a renderable gets when every primitive of `mesh` is
resolved from cache entry list `l`. -/
def geomOf (mesh : CMesh) (l : List Primitive) : List RenderGeom :=
  geomOfFrom mesh l 0 mesh.primitives.length

/-- Every cached primitive of entry `l` is fully built. -/
def allBuilt (l : List Primitive) : Prop :=
  ∀ pr ∈ l, pr.vertices.isSome = true ∧ pr.indices.isSome = true

/-- Invariant of an error-free traversal: every renderable recorded so far
matches a fully built mesh-cache entry for its mesh, and its geometry is
exactly that entry's geometry. -/
def RenderInv (st : LoaderState) : Prop :=
  ∀ rec ∈ st.renderLog, ∃ l, alookup st.meshCache rec.mesh.id = some l ∧
    l.length = rec.mesh.primitives.length ∧ allBuilt l ∧ rec.geom = geomOf rec.mesh l

/-- Invariant of an error-free traversal: `createPrimitive` ran at most
once per (mesh, primitive), and each run left the cache entry built. -/
def BuildOnce (st : LoaderState) : Prop :=
  ∀ M p, (st.buildLog.filter (fun e => decide (e = (M, p)))).length ≤ 1 ∧
    ((M, p) ∈ st.buildLog →
      ∃ l, alookup st.meshCache M = some l ∧
        ((l.getD p defaultPrimitive).vertices).isSome = true)

/-- Cached primitives are built atomically: an entry with a vertex buffer
also has its index buffer. -/
def CachePairs (st : LoaderState) : Prop :=
  ∀ mid l, alookup st.meshCache mid = some l → ∀ pr ∈ l,
    pr.vertices.isSome = true → pr.indices.isSome = true

/-- Every mesh-cache key was put there by a recorded renderable. -/
def CacheCovered (st : LoaderState) : Prop :=
  ∀ mid l, alookup st.meshCache mid = some l →
    ∃ rec ∈ st.renderLog, rec.mesh.id = mid

/-- All meshes in play at a point of the traversal: those already recorded
in renderables plus those of the remaining nodes. -/
def meshPool (st : LoaderState) (ns : List FlatNode) : List CMesh :=
  st.renderLog.map (fun r => r.mesh) ++ ns.filterMap (fun n => n.data.mesh)

/-- Mesh addresses determine mesh objects (true of C++ pointers). -/
def PoolCoherent (ms : List CMesh) : Prop :=
  ∀ m1 ∈ ms, ∀ m2 ∈ ms, m1.id = m2.id → m1 = m2

end Gltfio

-- ===================== concrete fixtures =====================

namespace Gltfio

/-- Shared test buffer / accessors for witnesses and counterexamples. -/
def wBuffer : CBuffer := { id := 7, uri := some "geometry.bin", size := 1000 }

def wBufferView : CBufferView := { offset := 16, buffer := wBuffer }

def wPosAccessor : CAccessor :=
  { componentType := .r32f
    shape := .vec3
    count := 3
    stride := 12
    offset := 0
    bufferView := wBufferView
    normalized := false
    isSparse := false
    minv := ⟨0, 0, 0⟩
    maxv := ⟨1, 2, 1⟩ }

def wIdxAccessor : CAccessor :=
  { componentType := .r16u
    shape := .scalar
    count := 3
    stride := 2
    offset := 0
    bufferView := wBufferView
    normalized := false
    isSparse := false
    minv := ⟨0, 0, 0⟩
    maxv := ⟨0, 0, 0⟩ }

def wPosAttribute : CAttribute := { type := .position, index := 0, data := wPosAccessor }

/-- A well-formed indexed triangle primitive with positions only. -/
def wPrim : CPrimitive :=
  { topology := .triangles
    material := none
    attributes := [wPosAttribute]
    indices := some wIdxAccessor }

/-- The same primitive without an index stream. -/
def wPrimNoIndices : CPrimitive := { wPrim with indices := none }

/-- The generate-shaders loader configuration used by the witnesses. -/
def wCfg : LoaderConfig := { matSource := .generateShaders, diagnostics := false }

def wMesh : CMesh := { id := 1, name := none, primitives := [wPrim] }

def wNode : CNodeData :=
  { id := 10
    hasMatrix := false
    matrix := identityMat4
    translation := ⟨0, 0, 0⟩
    rotation := ⟨0, 0, 0, 1⟩
    scale := ⟨1, 1, 1⟩
    mesh := some wMesh
    skin := none }

/-- One-node document with one well-formed mesh. -/
def wDoc : CDocument :=
  { scene := some { nodes := .cons wNode .nil .nil }
    scenes := []
    skins := []
    nodeSkins := [(10, none)] }

/-- Two sibling nodes referencing the same mesh object. -/
def wDocShared : CDocument :=
  { scene := some { nodes := .cons wNode (.nil) (.cons { wNode with id := 11 } .nil .nil) }
    scenes := []
    skins := []
    nodeSkins := [(10, none), (11, none)] }

/-- A primitive whose position accessor is sparse (per-primitive failure). -/
def wSparseAccessor : CAccessor := { wPosAccessor with isSparse := true }

def wPrimSparse : CPrimitive :=
  { wPrim with attributes := [{ type := .position, index := 0, data := wSparseAccessor }] }

def wMeshSparse : CMesh := { id := 2, name := none, primitives := [wPrimSparse] }

/-- Document whose only primitive uses a sparse accessor: the traversal
sets the import error flag. -/
def wDocSparse : CDocument :=
  { scene := some { nodes := .cons { wNode with id := 12, mesh := some wMeshSparse } .nil .nil }
    scenes := []
    skins := []
    nodeSkins := [(12, none)] }

/-- A primitive with an unsupported (triangle-strip) topology and otherwise
well-formed data. -/
def wPrimStrip : CPrimitive := { wPrim with topology := .triangleStrip }

def wMeshStrip : CMesh := { id := 3, name := none, primitives := [wPrimStrip] }

def wDocStrip : CDocument :=
  { scene := some { nodes := .cons { wNode with id := 13, mesh := some wMeshStrip } .nil .nil }
    scenes := []
    skins := []
    nodeSkins := [(13, none)] }

/-- A material content value (all-default PBR material). -/
def wMaterialContent : CMaterial :=
  { name := some "mat"
    doubleSided := false
    unlit := false
    alphaMode := .opq
    hasPbrSpecularGlossiness := false
    baseColorTexture := { hasTexture := false, texcoord := 0, hasTransform := false }
    metallicRoughnessTexture := { hasTexture := false, texcoord := 0, hasTransform := false }
    sgDiffuseTexture := { hasTexture := false, texcoord := 0, hasTransform := false }
    sgSpecularGlossinessTexture := { hasTexture := false, texcoord := 0, hasTransform := false }
    normalTexture := { hasTexture := false, texcoord := 0, hasTransform := false }
    occlusionTexture := { hasTexture := false, texcoord := 0, hasTransform := false }
    emissiveTexture := { hasTexture := false, texcoord := 0, hasTransform := false }  }

/-- Two distinct material document objects with byte-identical content. -/
def wMatRefA : MatRef := { ptr := 16, mat := wMaterialContent }

def wMatRefB : MatRef := { ptr := 32, mat := wMaterialContent }

end Gltfio

-- ===================== theorems =====================

namespace Gltfio

theorem emitAttribute_cases (uv : UvMap) (vb s : Nat) (a : CAttribute) :
    emitAttribute uv vb s a = ([], s) ∨
    ∃ b, emitAttribute uv vb s a = ([b], s + 1) ∧ b.bufferIndex = s ∧
      b.vertexBuffer = some vb ∧ b.indexBuffer = none := by
  unfold emitAttribute
  split
  · exact Or.inl rfl
  · split
    · exact Or.inr ⟨_, rfl, rfl, rfl, rfl⟩
    · exact Or.inr ⟨_, rfl, rfl, rfl, rfl⟩

theorem emitAttributes_mem (uv : UvMap) (vb : Nat) :
    ∀ (attrs : List CAttribute) (s : Nat) (b : BufferBinding),
    b ∈ (emitAttributes uv vb s attrs).1 →
    b.vertexBuffer = some vb ∧ b.indexBuffer = none := by
  intro attrs
  induction attrs with
  | nil =>
    intro s b h
    simp [emitAttributes] at h
  | cons a rest ih =>
    intro s b h
    simp only [emitAttributes, List.mem_append] at h
    rcases h with h1 | h2
    · rcases emitAttribute_cases uv vb s a with hc | ⟨b2, hc, _, hv, hi⟩
      · rw [hc] at h1
        simp at h1
      · rw [hc] at h1
        simp at h1
        subst h1
        exact ⟨hv, hi⟩
    · exact ih _ _ h2

end Gltfio

namespace Gltfio

theorem scan_emit_attr (uv : UvMap) (vb s : Nat) (acc acc1 : Pass1Acc)
    (a : CAttribute) (h : scanAttribute uv acc a = .ok acc1) :
    (acc1.slot = acc.slot ∧ emitAttribute uv vb s a = ([], s)) ∨
    (acc1.slot = acc.slot + 1 ∧
      ∃ b, emitAttribute uv vb s a = ([b], s + 1) ∧ b.bufferIndex = s) := by
  cases ha : a.type with
  | normal =>
    simp only [scanAttribute, ha, reduceCtorEq, if_true, if_false, reduceIte] at h
    cases h
    refine Or.inr ⟨rfl, ?_⟩
    simp [emitAttribute, ha]
  | tangent =>
    simp only [scanAttribute, ha, reduceCtorEq, reduceIte] at h
    cases h
    refine Or.inl ⟨rfl, ?_⟩
    simp [emitAttribute, ha]
  | invalid =>
    simp [scanAttribute, ha, getVertexAttrType] at h
  | texcoord =>
    cases huv : getUv uv a.index with
    | unused =>
      simp only [scanAttribute, ha, huv, getVertexAttrType, reduceCtorEq, reduceIte,
        and_self, and_true, if_true, if_false] at h
      cases h
      refine Or.inl ⟨rfl, ?_⟩
      simp [emitAttribute, ha, huv]
    | uv0set =>
      simp only [scanAttribute, ha, huv, getVertexAttrType, reduceCtorEq, reduceIte,
        and_false, if_false] at h
      cases hel : getElementType a.data.shape a.data.componentType with
      | none => simp [hel] at h
      | some atype =>
        simp only [hel] at h
        cases hsp : a.data.isSparse with
        | true => simp [hsp] at h
        | false =>
          simp only [hsp, Bool.false_eq_true, if_false, reduceIte, Except.ok.injEq] at h
          subst h
          refine Or.inr ⟨rfl, ?_⟩
          simp [emitAttribute, ha, huv]
    | uv1set =>
      simp only [scanAttribute, ha, huv, getVertexAttrType, reduceCtorEq, reduceIte,
        and_false, if_false] at h
      cases hel : getElementType a.data.shape a.data.componentType with
      | none => simp [hel] at h
      | some atype =>
        simp only [hel] at h
        cases hsp : a.data.isSparse with
        | true => simp [hsp] at h
        | false =>
          simp only [hsp, Bool.false_eq_true, if_false, reduceIte, Except.ok.injEq] at h
          subst h
          refine Or.inr ⟨rfl, ?_⟩
          simp [emitAttribute, ha, huv]
  | position =>
    simp only [scanAttribute, ha, getVertexAttrType, reduceCtorEq, reduceIte,
      false_and, if_false] at h
    cases hel : getElementType a.data.shape a.data.componentType with
    | none => simp [hel] at h
    | some atype =>
      simp only [hel] at h
      cases hsp : a.data.isSparse with
      | true => simp [hsp] at h
      | false =>
        simp only [hsp, Bool.false_eq_true, if_false, reduceIte, Except.ok.injEq] at h
        subst h
        refine Or.inr ⟨rfl, ?_⟩
        simp [emitAttribute, ha]
  | color =>
    simp only [scanAttribute, ha, getVertexAttrType, reduceCtorEq, reduceIte,
      false_and, if_false] at h
    cases hel : getElementType a.data.shape a.data.componentType with
    | none => simp [hel] at h
    | some atype =>
      simp only [hel] at h
      cases hsp : a.data.isSparse with
      | true => simp [hsp] at h
      | false =>
        simp only [hsp, Bool.false_eq_true, if_false, reduceIte, Except.ok.injEq] at h
        subst h
        refine Or.inr ⟨rfl, ?_⟩
        simp [emitAttribute, ha]
  | joints =>
    simp only [scanAttribute, ha, getVertexAttrType, reduceCtorEq, reduceIte,
      false_and, if_false] at h
    cases hel : getElementType a.data.shape a.data.componentType with
    | none => simp [hel] at h
    | some atype =>
      simp only [hel] at h
      cases hsp : a.data.isSparse with
      | true => simp [hsp] at h
      | false =>
        simp only [hsp, Bool.false_eq_true, if_false, reduceIte, Except.ok.injEq] at h
        subst h
        refine Or.inr ⟨rfl, ?_⟩
        simp [emitAttribute, ha]
  | weights =>
    simp only [scanAttribute, ha, getVertexAttrType, reduceCtorEq, reduceIte,
      false_and, if_false] at h
    cases hel : getElementType a.data.shape a.data.componentType with
    | none => simp [hel] at h
    | some atype =>
      simp only [hel] at h
      cases hsp : a.data.isSparse with
      | true => simp [hsp] at h
      | false =>
        simp only [hsp, Bool.false_eq_true, if_false, reduceIte, Except.ok.injEq] at h
        subst h
        refine Or.inr ⟨rfl, ?_⟩
        simp [emitAttribute, ha]

end Gltfio

namespace Gltfio

theorem scan_emit (uv : UvMap) (vb : Nat) :
    ∀ (attrs : List CAttribute) (acc acc2 : Pass1Acc) (s : Nat),
    scanAttributes uv acc attrs = .ok acc2 →
    acc.slot ≤ acc2.slot ∧
    (emitAttributes uv vb s attrs).2 = s + (acc2.slot - acc.slot) ∧
    (emitAttributes uv vb s attrs).1.map (fun b => b.bufferIndex) =
      List.range' s (acc2.slot - acc.slot) := by
  intro attrs
  induction attrs with
  | nil =>
    intro acc acc2 s h
    simp only [scanAttributes, Except.ok.injEq] at h
    subst h
    simp [emitAttributes, List.range']
  | cons a rest ih =>
    intro acc acc2 s h
    simp only [scanAttributes] at h
    cases hs : scanAttribute uv acc a with
    | error accP => rw [hs] at h; cases h
    | ok acc1 =>
      rw [hs] at h
      rcases scan_emit_attr uv vb s acc acc1 a hs with ⟨hslot, hemit⟩ | ⟨hslot, b, hemit, hb⟩
      · obtain ⟨hle, h2, h3⟩ := ih acc1 acc2 s h
        refine ⟨by omega, ?_, ?_⟩
        · simp only [emitAttributes, hemit]
          rw [h2]
          omega
        · simp only [emitAttributes, hemit, List.nil_append]
          rw [h3, hslot]
      · obtain ⟨hle, h2, h3⟩ := ih acc1 acc2 (s + 1) h
        have hd : acc2.slot - acc.slot = (acc2.slot - acc1.slot) + 1 := by omega
        refine ⟨by omega, ?_, ?_⟩
        · simp only [emitAttributes, hemit]
          rw [h2]
          omega
        · simp only [emitAttributes, hemit, List.cons_append, List.nil_append,
            List.map_cons]
          rw [h3, hb, hd, List.range'_succ]

theorem scanAttribute_dropped (uv : UvMap) (acc : Pass1Acc) (a : CAttribute)
    (h : a.type = .tangent ∨ (a.type = .texcoord ∧ getUv uv a.index = .unused)) :
    scanAttribute uv acc a = .ok acc := by
  rcases h with h | ⟨h, huv⟩
  · simp [scanAttribute, h]
  · simp [scanAttribute, h, huv, getVertexAttrType]

theorem emitAttribute_dropped (uv : UvMap) (vb s : Nat) (a : CAttribute)
    (h : a.type = .tangent ∨ (a.type = .texcoord ∧ getUv uv a.index = .unused)) :
    emitAttribute uv vb s a = ([], s) := by
  rcases h with h | ⟨h, huv⟩
  · simp [emitAttribute, h]
  · simp [emitAttribute, h, huv]

theorem scanAttributes_drop (uv : UvMap) (a : CAttribute)
    (h : a.type = .tangent ∨ (a.type = .texcoord ∧ getUv uv a.index = .unused)) :
    ∀ (pre post : List CAttribute) (acc : Pass1Acc),
    scanAttributes uv acc (pre ++ a :: post) = scanAttributes uv acc (pre ++ post) := by
  intro pre
  induction pre with
  | nil =>
    intro post acc
    simp only [List.nil_append, scanAttributes, scanAttribute_dropped uv acc a h]
  | cons p pre ih =>
    intro post acc
    simp only [List.cons_append, scanAttributes]
    cases hs : scanAttribute uv acc p with
    | error accP => rfl
    | ok acc1 => exact ih post acc1

theorem emitAttributes_drop (uv : UvMap) (vb : Nat) (a : CAttribute)
    (h : a.type = .tangent ∨ (a.type = .texcoord ∧ getUv uv a.index = .unused)) :
    ∀ (pre post : List CAttribute) (s : Nat),
    emitAttributes uv vb s (pre ++ a :: post) = emitAttributes uv vb s (pre ++ post) := by
  intro pre
  induction pre with
  | nil =>
    intro post s
    simp only [List.nil_append, emitAttributes, emitAttribute_dropped uv vb s a h,
      List.nil_append]
  | cons p pre ih =>
    intro post s
    simp only [List.cons_append, emitAttributes, List.append_eq]
    rw [ih post]

end Gltfio

namespace Gltfio

theorem range'_zero_concat (n : Nat) :
    List.range' 0 (n + 1) = List.range' 0 n ++ [n] := by
  have := @List.range'_concat 1 0 n
  simpa using this

theorem applyDummy_slot (cfg : LoaderConfig) (acc : Pass1Acc) :
    ((applyDummy cfg acc).2).slot =
      acc.slot + (if (applyDummy cfg acc).1 then 1 else 0) := by
  unfold applyDummy
  by_cases hsrc : cfg.matSource = .loadUbershaders
  · simp only [hsrc, reduceIte]
    by_cases h0 : acc.hasUv0 <;> by_cases h1 : acc.hasUv1 <;>
      by_cases h2 : acc.hasVertexColor <;> simp [h0, h1, h2]
  · simp [hsrc]

/-- C8: a raw tangent stream, or a texcoord stream whose slot the material
UV map sends to UNUSED, is entirely absent from the vertex buffer: the
layout pass and the descriptor-emission pass both compute exactly what
they would compute if the attribute were not present at all (so it gets no
buffer slot and no Buffer Binding Descriptor). -/
theorem c8_dropped_streams_absent (uv : UvMap) (vb : Nat) (a : CAttribute)
    (pre post : List CAttribute) (acc : Pass1Acc) (s : Nat)
    (h : a.type = .tangent ∨ (a.type = .texcoord ∧ getUv uv a.index = .unused)) :
    scanAttributes uv acc (pre ++ a :: post) = scanAttributes uv acc (pre ++ post) ∧
    emitAttributes uv vb s (pre ++ a :: post) = emitAttributes uv vb s (pre ++ post) :=
  ⟨scanAttributes_drop uv a h pre post acc, emitAttributes_drop uv vb a h pre post s⟩

theorem c8_dropped_streams_absent_witness :
    (CAttribute.type { type := .texcoord, index := 2, data := wPosAccessor } = .tangent ∨
      (CAttribute.type { type := .texcoord, index := 2, data := wPosAccessor } = .texcoord ∧
        getUv [.uv0set, .uv1set, .unused] 2 = .unused)) ∧
    (scanAttributes [.uv0set, .uv1set, .unused] (initialPass1 emptyAabb)
        ([wPosAttribute] ++ { type := .texcoord, index := 2, data := wPosAccessor } :: []) =
      scanAttributes [.uv0set, .uv1set, .unused] (initialPass1 emptyAabb) ([wPosAttribute] ++ []) ∧
    emitAttributes [.uv0set, .uv1set, .unused] 5 0
        ([wPosAttribute] ++ { type := .texcoord, index := 2, data := wPosAccessor } :: []) =
      emitAttributes [.uv0set, .uv1set, .unused] 5 0 ([wPosAttribute] ++ [])) :=
  ⟨by decide,
   c8_dropped_streams_absent [.uv0set, .uv1set, .unused] 5
     { type := .texcoord, index := 2, data := wPosAccessor } [wPosAttribute] []
     (initialPass1 emptyAabb) 0 (by decide)⟩

end Gltfio


namespace Gltfio

theorem vertexPart_fail (cfg : LoaderConfig) (st : LoaderState)
    (inPrim : CPrimitive) (outPrim : Primitive) (uvmap : UvMap) (ib : Nat)
    (accP : Pass1Acc)
    (hscan : scanAttributes uvmap (initialPass1 outPrim.aabb) inPrim.attributes
      = .error accP) :
    vertexPart cfg st inPrim outPrim uvmap ib =
      (false, st, { outPrim with aabb := accP.aabb }) := by
  unfold vertexPart
  rw [hscan]

theorem vertexPart_ok_nodummy (cfg : LoaderConfig) (st : LoaderState)
    (inPrim : CPrimitive) (outPrim : Primitive) (uvmap : UvMap) (ib : Nat)
    (acc1 : Pass1Acc)
    (hscan : scanAttributes uvmap (initialPass1 outPrim.aabb) inPrim.attributes
      = .ok acc1)
    (hnd : (applyDummy cfg acc1).1 = false) :
    vertexPart cfg st inPrim outPrim uvmap ib =
      (true,
       { st with
         fresh := st.fresh + 1
         vbBuilds := st.vbBuilds ++
           [{ handle := st.fresh
              bufferCount := (applyDummy cfg acc1).2.slot
              vertexCount := (applyDummy cfg acc1).2.vertexCount
              layout := (applyDummy cfg acc1).2.layout }]
         vertexBuffers := st.vertexBuffers ++ [st.fresh]
         bufferBindings := st.bufferBindings ++
           (emitAttributes uvmap st.fresh 0 inPrim.attributes).1 },
       { outPrim with
         aabb := (applyDummy cfg acc1).2.aabb
         vertices := some st.fresh
         indices := some ib }) := by
  unfold vertexPart
  rw [hscan]
  simp only [alloc, hnd, Bool.false_eq_true, reduceIte]

theorem vertexPart_ok_dummy (cfg : LoaderConfig) (st : LoaderState)
    (inPrim : CPrimitive) (outPrim : Primitive) (uvmap : UvMap) (ib : Nat)
    (acc1 : Pass1Acc)
    (hscan : scanAttributes uvmap (initialPass1 outPrim.aabb) inPrim.attributes
      = .ok acc1)
    (hnd : (applyDummy cfg acc1).1 = true) :
    vertexPart cfg st inPrim outPrim uvmap ib =
      (true,
       { st with
         fresh := st.fresh + 1
         vbBuilds := st.vbBuilds ++
           [{ handle := st.fresh
              bufferCount := (applyDummy cfg acc1).2.slot
              vertexCount := (applyDummy cfg acc1).2.vertexCount
              layout := (applyDummy cfg acc1).2.layout }]
         vertexBuffers := st.vertexBuffers ++ [st.fresh]
         bufferBindings := st.bufferBindings ++
           (emitAttributes uvmap st.fresh 0 inPrim.attributes).1 ++
           [dummyBinding st.fresh (emitAttributes uvmap st.fresh 0 inPrim.attributes).2
             (applyDummy cfg acc1).2.vertexCount] },
       { outPrim with
         aabb := (applyDummy cfg acc1).2.aabb
         vertices := some st.fresh
         indices := some ib }) := by
  unfold vertexPart
  rw [hscan]
  simp only [alloc, hnd, reduceIte]

theorem createPrimitive_someIdx (cfg : LoaderConfig) (st : LoaderState)
    (meshId primIndex : Nat) (inPrim : CPrimitive) (outPrim : Primitive)
    (uvmap : UvMap) (iacc : CAccessor) (itype : IndexType)
    (hidx : inPrim.indices = some iacc)
    (hit : getIndexType iacc.componentType = some itype) :
    createPrimitive cfg st meshId primIndex inPrim outPrim uvmap =
      vertexPart cfg
        { st with
          buildLog := st.buildLog ++ [(meshId, primIndex)]
          fresh := st.fresh + 1
          bufferBindings := st.bufferBindings ++ [indexStreamBinding iacc st.fresh]
          indexBuffers := st.indexBuffers ++ [(st.fresh, iacc.count, itype)] }
        inPrim outPrim uvmap st.fresh := by
  unfold createPrimitive
  simp only [hidx, hit, alloc]

theorem createPrimitive_badIdx (cfg : LoaderConfig) (st : LoaderState)
    (meshId primIndex : Nat) (inPrim : CPrimitive) (outPrim : Primitive)
    (uvmap : UvMap) (iacc : CAccessor)
    (hidx : inPrim.indices = some iacc)
    (hit : getIndexType iacc.componentType = none) :
    createPrimitive cfg st meshId primIndex inPrim outPrim uvmap =
      (false, { st with buildLog := st.buildLog ++ [(meshId, primIndex)] }, outPrim) := by
  unfold createPrimitive
  simp only [hidx, hit, alloc]

theorem createPrimitive_noIdx (cfg : LoaderConfig) (st : LoaderState)
    (meshId primIndex : Nat) (inPrim : CPrimitive) (outPrim : Primitive)
    (uvmap : UvMap) (hidx : inPrim.indices = none) :
    createPrimitive cfg st meshId primIndex inPrim outPrim uvmap =
      vertexPart cfg
        { st with
          buildLog := st.buildLog ++ [(meshId, primIndex)]
          fresh := st.fresh + 1
          bufferBindings := st.bufferBindings ++
            [trivialIndexBinding st.fresh (inPrim.attributes.headD defaultAttribute).data.count]
          indexBuffers := st.indexBuffers ++
            [(st.fresh, (inPrim.attributes.headD defaultAttribute).data.count, .uint)] }
        inPrim outPrim uvmap st.fresh := by
  unfold createPrimitive
  simp only [hidx, alloc]

end Gltfio

namespace Gltfio

theorem c1_aux (cfg : LoaderConfig) (st stv : LoaderState) (inPrim : CPrimitive)
    (outPrim : Primitive) (uvmap : UvMap) (ib : Nat) (pre : List BufferBinding)
    (hfresh : stv.fresh = st.fresh + 1)
    (hbb : stv.bufferBindings = st.bufferBindings ++ pre)
    (hvb : stv.vbBuilds = st.vbBuilds)
    (hpre : ∀ b ∈ pre, b.vertexBuffer = none)
    (hvok : (vertexPart cfg stv inPrim outPrim uvmap ib).1 = true) :
    (((vertexPart cfg stv inPrim outPrim uvmap ib).2.1.bufferBindings.drop
        st.bufferBindings.length).filter
          (fun b => decide (b.vertexBuffer = some (st.fresh + 1)))).map
        (fun b => b.bufferIndex)
      = List.range (vertexSlotCount cfg uvmap inPrim.attributes outPrim.aabb) ∧
    ((vertexPart cfg stv inPrim outPrim uvmap ib).2.1.vbBuilds.drop
        st.vbBuilds.length).map (fun r => (r.handle, r.bufferCount))
      = [(st.fresh + 1, vertexSlotCount cfg uvmap inPrim.attributes outPrim.aabb)] := by
  have hprefilter : pre.filter (fun b => decide (b.vertexBuffer = some (st.fresh + 1))) = [] := by
    rw [List.filter_eq_nil_iff]
    intro b hb
    simp [hpre b hb]
  cases hscan : scanAttributes uvmap (initialPass1 outPrim.aabb) inPrim.attributes with
  | error accP =>
    rw [vertexPart_fail cfg stv inPrim outPrim uvmap ib accP hscan] at hvok
    cases hvok
  | ok acc1 =>
    obtain ⟨hle, hslots, hmap⟩ :=
      scan_emit uvmap stv.fresh inPrim.attributes (initialPass1 outPrim.aabb) acc1 0 hscan
    have hinit : (initialPass1 outPrim.aabb).slot = 0 := rfl
    rw [hinit, Nat.sub_zero] at hslots hmap
    have hvsc : vertexSlotCount cfg uvmap inPrim.attributes outPrim.aabb =
        acc1.slot + (if (applyDummy cfg acc1).1 then 1 else 0) := by
      unfold vertexSlotCount finalLayout
      rw [hscan]
      exact applyDummy_slot cfg acc1
    have hmem := emitAttributes_mem uvmap stv.fresh inPrim.attributes 0
    have hemitfilter :
        ((emitAttributes uvmap stv.fresh 0 inPrim.attributes).1.filter
          (fun b => decide (b.vertexBuffer = some (st.fresh + 1))))
        = (emitAttributes uvmap stv.fresh 0 inPrim.attributes).1 := by
      rw [List.filter_eq_self]
      intro b hb
      rw [← hfresh]
      simp [(hmem b hb).1]
    cases hnd : (applyDummy cfg acc1).1 with
    | false =>
      rw [vertexPart_ok_nodummy cfg stv inPrim outPrim uvmap ib acc1 hscan hnd]
      dsimp only
      constructor
      · rw [hbb, List.append_assoc, List.drop_left, List.filter_append, hprefilter,
          List.nil_append, hemitfilter, hmap, hvsc, hnd]
        simp [List.range_eq_range']
      · rw [hvb, List.drop_left, hvsc, hnd, hfresh]
        simp only [List.map_cons, List.map_nil, List.cons.injEq, Prod.mk.injEq,
          and_true, true_and]
        rw [applyDummy_slot cfg acc1, hnd]
    | true =>
      rw [vertexPart_ok_dummy cfg stv inPrim outPrim uvmap ib acc1 hscan hnd]
      dsimp only
      constructor
      · rw [hbb, List.append_assoc, List.append_assoc, List.drop_left,
          ← List.append_assoc, List.filter_append, List.filter_append, hprefilter,
          List.nil_append, hemitfilter]
        have hdf : (List.filter (fun b => decide (b.vertexBuffer = some (st.fresh + 1)))
            [dummyBinding stv.fresh (emitAttributes uvmap stv.fresh 0 inPrim.attributes).2
              ((applyDummy cfg acc1).2).vertexCount])
            = [dummyBinding stv.fresh (emitAttributes uvmap stv.fresh 0 inPrim.attributes).2
              ((applyDummy cfg acc1).2).vertexCount] := by
          simp [dummyBinding, hfresh]
        rw [hdf, List.map_append, hmap, List.map_cons, List.map_nil]
        have hdix : (dummyBinding stv.fresh
            (emitAttributes uvmap stv.fresh 0 inPrim.attributes).2
            ((applyDummy cfg acc1).2).vertexCount).bufferIndex
            = (emitAttributes uvmap stv.fresh 0 inPrim.attributes).2 := rfl
        rw [hdix, hslots, hvsc, hnd]
        simp only [Nat.zero_add, reduceIte]
        rw [List.range_eq_range', range'_zero_concat]
      · rw [hvb, List.drop_left, hvsc, hnd, hfresh]
        simp only [List.map_cons, List.map_nil, List.cons.injEq, Prod.mk.injEq,
          and_true, true_and]
        rw [applyDummy_slot cfg acc1, hnd]
        simp

/-- C1: when `createPrimitive` returns `true`, the Buffer Binding
Descriptors it appended that target the newly built vertex buffer
(handle `st.fresh + 1`) carry buffer indices `0, 1, ..., bufferCount - 1`
in order, where `bufferCount` is exactly the slot total handed to
`vbb.bufferCount` — one descriptor per allocated slot, no slot left
without a descriptor, no descriptor for an unallocated slot, ubershader
dummy attributes included; hence `assert(bufferCount == slot)` holds. -/
theorem c1_descriptor_per_slot (cfg : LoaderConfig) (st : LoaderState)
    (meshId primIndex : Nat) (inPrim : CPrimitive) (outPrim : Primitive)
    (uvmap : UvMap)
    (hok : (createPrimitive cfg st meshId primIndex inPrim outPrim uvmap).1 = true) :
    (((createPrimitive cfg st meshId primIndex inPrim outPrim uvmap).2.1.bufferBindings.drop
        st.bufferBindings.length).filter
          (fun b => decide (b.vertexBuffer = some (st.fresh + 1)))).map
        (fun b => b.bufferIndex)
      = List.range (vertexSlotCount cfg uvmap inPrim.attributes outPrim.aabb) ∧
    ((createPrimitive cfg st meshId primIndex inPrim outPrim uvmap).2.1.vbBuilds.drop
        st.vbBuilds.length).map (fun r => (r.handle, r.bufferCount))
      = [(st.fresh + 1, vertexSlotCount cfg uvmap inPrim.attributes outPrim.aabb)] := by
  cases hidx : inPrim.indices with
  | some iacc =>
    cases hit : getIndexType iacc.componentType with
    | none =>
      rw [createPrimitive_badIdx cfg st meshId primIndex inPrim outPrim uvmap iacc hidx hit]
        at hok
      cases hok
    | some itype =>
      rw [createPrimitive_someIdx cfg st meshId primIndex inPrim outPrim uvmap iacc itype
        hidx hit] at hok ⊢
      refine c1_aux cfg st _ inPrim outPrim uvmap st.fresh
        [indexStreamBinding iacc st.fresh] rfl rfl rfl ?_ hok
      intro b hb
      simp only [List.mem_singleton] at hb
      subst hb
      rfl
  | none =>
    rw [createPrimitive_noIdx cfg st meshId primIndex inPrim outPrim uvmap hidx] at hok ⊢
    refine c1_aux cfg st _ inPrim outPrim uvmap st.fresh
      [trivialIndexBinding st.fresh (inPrim.attributes.headD defaultAttribute).data.count]
      rfl rfl rfl ?_ hok
    intro b hb
    simp only [List.mem_singleton] at hb
    subst hb
    rfl

theorem c1_descriptor_per_slot_witness :
    (createPrimitive wCfg initState 1 0 wPrim defaultPrimitive []).1 = true ∧
    ((((createPrimitive wCfg initState 1 0 wPrim defaultPrimitive []).2.1.bufferBindings.drop
        initState.bufferBindings.length).filter
          (fun b => decide (b.vertexBuffer = some (initState.fresh + 1)))).map
        (fun b => b.bufferIndex)
      = List.range (vertexSlotCount wCfg [] wPrim.attributes defaultPrimitive.aabb) ∧
    ((createPrimitive wCfg initState 1 0 wPrim defaultPrimitive []).2.1.vbBuilds.drop
        initState.vbBuilds.length).map (fun r => (r.handle, r.bufferCount))
      = [(initState.fresh + 1, vertexSlotCount wCfg [] wPrim.attributes defaultPrimitive.aabb)]) :=
  ⟨by decide, c1_descriptor_per_slot wCfg initState 1 0 wPrim defaultPrimitive [] (by decide)⟩

end Gltfio

namespace Gltfio

theorem vertexPart_extend (cfg : LoaderConfig) (stv : LoaderState)
    (inPrim : CPrimitive) (outPrim : Primitive) (uvmap : UvMap) (ib : Nat) :
    ∃ rest2, (vertexPart cfg stv inPrim outPrim uvmap ib).2.1.bufferBindings
        = stv.bufferBindings ++ rest2 ∧
      (∀ b ∈ rest2, b.indexBuffer = none) ∧
      (vertexPart cfg stv inPrim outPrim uvmap ib).2.1.indexBuffers
        = stv.indexBuffers := by
  cases hscan : scanAttributes uvmap (initialPass1 outPrim.aabb) inPrim.attributes with
  | error accP =>
    rw [vertexPart_fail cfg stv inPrim outPrim uvmap ib accP hscan]
    exact ⟨[], by simp, by simp, rfl⟩
  | ok acc1 =>
    have hmem := emitAttributes_mem uvmap stv.fresh inPrim.attributes 0
    cases hnd : (applyDummy cfg acc1).1 with
    | false =>
      rw [vertexPart_ok_nodummy cfg stv inPrim outPrim uvmap ib acc1 hscan hnd]
      refine ⟨(emitAttributes uvmap stv.fresh 0 inPrim.attributes).1, rfl, ?_, rfl⟩
      intro b hb
      exact (hmem b hb).2
    | true =>
      rw [vertexPart_ok_dummy cfg stv inPrim outPrim uvmap ib acc1 hscan hnd]
      refine ⟨(emitAttributes uvmap stv.fresh 0 inPrim.attributes).1 ++
        [dummyBinding stv.fresh (emitAttributes uvmap stv.fresh 0 inPrim.attributes).2
          ((applyDummy cfg acc1).2).vertexCount], ?_, ?_, rfl⟩
      · dsimp only
        rw [List.append_assoc]
      · intro b hb
        rcases List.mem_append.mp hb with h1 | h2
        · exact (hmem b h1).2
        · simp only [List.mem_singleton] at h2
          subst h2
          rfl

/-- C7: for a primitive without an index stream, `createPrimitive`
allocates an index buffer whose index count equals the vertex count (the
count of the first attribute's accessor), and appends exactly one Buffer
Binding Descriptor referencing an index buffer: the trivial-index
descriptor, flagged `generateTrivialIndices`, with byte size
`vertexCount * 4` and neither a source URI nor a source data pointer. -/
theorem c7_trivial_index_buffer (cfg : LoaderConfig) (st : LoaderState)
    (meshId primIndex : Nat) (inPrim : CPrimitive) (outPrim : Primitive)
    (uvmap : UvMap) (a : CAttribute) (rest : List CAttribute)
    (hidx : inPrim.indices = none) (hattrs : inPrim.attributes = a :: rest) :
    (((createPrimitive cfg st meshId primIndex inPrim outPrim uvmap).2.1.bufferBindings.drop
        st.bufferBindings.length).filter (fun b => decide (¬ b.indexBuffer = none)))
      = [trivialIndexBinding st.fresh a.data.count] ∧
    (createPrimitive cfg st meshId primIndex inPrim outPrim uvmap).2.1.indexBuffers
      = st.indexBuffers ++ [(st.fresh, a.data.count, IndexType.uint)] ∧
    (trivialIndexBinding st.fresh a.data.count).generateTrivialIndices = true ∧
    (trivialIndexBinding st.fresh a.data.count).size = a.data.count * 4 ∧
    (trivialIndexBinding st.fresh a.data.count).uri = none ∧
    (trivialIndexBinding st.fresh a.data.count).data = none := by
  rw [createPrimitive_noIdx cfg st meshId primIndex inPrim outPrim uvmap hidx]
  rw [hattrs]
  simp only [List.headD_cons]
  obtain ⟨rest2, hbbe, hnone, hidxb⟩ := vertexPart_extend cfg
    { st with
      buildLog := st.buildLog ++ [(meshId, primIndex)]
      fresh := st.fresh + 1
      bufferBindings := st.bufferBindings ++ [trivialIndexBinding st.fresh a.data.count]
      indexBuffers := st.indexBuffers ++ [(st.fresh, a.data.count, .uint)] }
    inPrim outPrim uvmap st.fresh
  rw [hbbe, hidxb]
  dsimp only
  rw [List.append_assoc, List.drop_left, List.filter_append]
  have h1 : List.filter (fun b => decide (¬ b.indexBuffer = none))
      [trivialIndexBinding st.fresh a.data.count]
      = [trivialIndexBinding st.fresh a.data.count] := by
    simp [trivialIndexBinding]
  have h2 : List.filter (fun b => decide (¬ b.indexBuffer = none)) rest2 = [] := by
    rw [List.filter_eq_nil_iff]
    intro b hb
    simp [hnone b hb]
  rw [h1, h2, List.append_nil]
  exact ⟨rfl, rfl, rfl, rfl, rfl, rfl⟩

theorem c7_trivial_index_buffer_witness :
    (wPrimNoIndices.indices = none ∧ wPrimNoIndices.attributes = wPosAttribute :: []) ∧
    ((((createPrimitive wCfg initState 1 0 wPrimNoIndices defaultPrimitive
        []).2.1.bufferBindings.drop initState.bufferBindings.length).filter
          (fun b => decide (¬ b.indexBuffer = none)))
      = [trivialIndexBinding initState.fresh wPosAttribute.data.count] ∧
    (createPrimitive wCfg initState 1 0 wPrimNoIndices defaultPrimitive
        []).2.1.indexBuffers
      = initState.indexBuffers ++ [(initState.fresh, wPosAttribute.data.count, IndexType.uint)] ∧
    (trivialIndexBinding initState.fresh wPosAttribute.data.count).generateTrivialIndices = true ∧
    (trivialIndexBinding initState.fresh wPosAttribute.data.count).size
      = wPosAttribute.data.count * 4 ∧
    (trivialIndexBinding initState.fresh wPosAttribute.data.count).uri = none ∧
    (trivialIndexBinding initState.fresh wPosAttribute.data.count).data = none) :=
  ⟨⟨rfl, rfl⟩,
   c7_trivial_index_buffer wCfg initState 1 0 wPrimNoIndices defaultPrimitive []
     wPosAttribute [] rfl rfl⟩

end Gltfio

namespace Gltfio

theorem alookup_aset_self {β : Type} (l : List (Nat × β)) (k : Nat) (v : β) :
    alookup (aset l k v) k = some v := by
  induction l with
  | nil => simp [aset, alookup]
  | cons p rest ih =>
    obtain ⟨k2, w⟩ := p
    by_cases h : k2 = k
    · simp [aset, alookup, h]
    · simp [aset, alookup, h, ih]

theorem alookup_aset_ne {β : Type} (l : List (Nat × β)) (k k2 : Nat) (v : β)
    (h : k2 ≠ k) : alookup (aset l k v) k2 = alookup l k2 := by
  induction l with
  | nil => simp [aset, alookup, Ne.symm h]
  | cons p rest ih =>
    obtain ⟨k3, w⟩ := p
    by_cases h3 : k3 = k
    · subst h3
      simp [aset, alookup, Ne.symm h]
    · simp [aset, alookup, h3, ih]

end Gltfio

namespace Gltfio

theorem createMaterialInstance_hit (cfg : LoaderConfig) (st : LoaderState)
    (im : Option MatRef) (vc : Bool) (e : MaterialEntry)
    (h : alookup st.matCache (matCacheKey im vc) = some e) :
    createMaterialInstance cfg st im vc = (e.inst, e.uvmap, st) := by
  simp only [createMaterialInstance]
  rw [h]

theorem createMaterialInstance_miss_null (cfg : LoaderConfig) (st : LoaderState)
    (vc : Bool) (h : alookup st.matCache (matCacheKey none vc) = none) :
    createMaterialInstance cfg st none vc =
      (st.fresh, providerUvMap defaultKeyUnlit,
       { st with
         fresh := st.fresh + 1
         materialInstances := st.materialInstances ++ [st.fresh]
         matCache := aset st.matCache 0
           { inst := st.fresh, uvmap := providerUvMap defaultKeyUnlit } }) := by
  simp only [createMaterialInstance]
  rw [h]
  simp only [providerCreateInstance, alloc]

theorem createMaterialInstance_miss_some (cfg : LoaderConfig) (st : LoaderState)
    (m : MatRef) (vc : Bool)
    (h : alookup st.matCache (matCacheKey (some m) vc) = none) :
    createMaterialInstance cfg st (some m) vc =
      (st.fresh, providerUvMap (buildMatKey cfg m.mat vc),
       { st with
         fresh := st.fresh + 1
         materialInstances := st.materialInstances ++ [st.fresh]
         matCache := aset st.matCache (matCacheKey (some m) vc)
           { inst := st.fresh, uvmap := providerUvMap (buildMatKey cfg m.mat vc) } }) := by
  simp only [createMaterialInstance]
  rw [h]
  simp only [providerCreateInstance, alloc]

theorem matCacheKey_flip_ne (m : MatRef) (vc : Bool) :
    matCacheKey (some m) vc ≠ matCacheKey (some m) (!vc) := by
  intro heq
  unfold matCacheKey at heq
  have hc : (if vc then 1 else 0 : Nat) = (if !vc then 1 else 0) := by
    have h1 : m.ptr ^^^ (m.ptr ^^^ (if vc then 1 else 0)) =
        m.ptr ^^^ (m.ptr ^^^ (if !vc then 1 else 0)) := by rw [heq]
    rwa [← Nat.xor_assoc, ← Nat.xor_assoc, Nat.xor_self, Nat.zero_xor, Nat.zero_xor] at h1
  cases vc <;> simp at hc

end Gltfio

namespace Gltfio

/-- C4 counterexample: two material document objects with byte-identical
content but distinct addresses (`wMatRefA`, `wMatRefB`) and matching
vertex-color presence receive distinct `MaterialInstance`s — the cache key
is the object address, not the content, so the claim as stated fails. -/
theorem c4_byte_identical_not_shared :
    wMatRefA.mat = wMatRefB.mat ∧ wMatRefA.ptr ≠ wMatRefB.ptr ∧
    (createMaterialInstance wCfg
        (createMaterialInstance wCfg initState (some wMatRefA) false).2.2
        (some wMatRefB) false).1
      ≠ (createMaterialInstance wCfg initState (some wMatRefA) false).1 := by
  refine ⟨rfl, by decide, ?_⟩
  decide

/-- C4 amended: material-instance deduplication is keyed by the identity of
the material document object and the vertex-color flag.  Calling
`createMaterialInstance` again with the *same* material object and the
same vertex-color flag returns the identical instance and the same UvMap;
calling it with the same object and the flipped vertex-color flag returns
a distinct instance. -/
theorem c4_identity_dedup_and_vertex_color_split (cfg : LoaderConfig)
    (st : LoaderState) (m : MatRef) (vc : Bool) (hinv : MatCacheInv st) :
    (createMaterialInstance cfg
        (createMaterialInstance cfg st (some m) vc).2.2 (some m) vc).1
      = (createMaterialInstance cfg st (some m) vc).1 ∧
    (createMaterialInstance cfg
        (createMaterialInstance cfg st (some m) vc).2.2 (some m) vc).2.1
      = (createMaterialInstance cfg st (some m) vc).2.1 ∧
    (createMaterialInstance cfg
        (createMaterialInstance cfg st (some m) vc).2.2 (some m) (!vc)).1
      ≠ (createMaterialInstance cfg st (some m) vc).1 := by
  have hkey := matCacheKey_flip_ne m vc
  cases h1 : alookup st.matCache (matCacheKey (some m) vc) with
  | some e =>
    rw [createMaterialInstance_hit cfg st (some m) vc e h1]
    dsimp only
    rw [createMaterialInstance_hit cfg st (some m) vc e h1]
    refine ⟨rfl, rfl, ?_⟩
    cases h2 : alookup st.matCache (matCacheKey (some m) (!vc)) with
    | some e2 =>
      rw [createMaterialInstance_hit cfg st (some m) (!vc) e2 h2]
      exact Ne.symm (hinv.2 _ _ _ _ h1 h2 hkey)
    | none =>
      rw [createMaterialInstance_miss_some cfg st m (!vc) h2]
      dsimp only
      intro hc
      exact absurd (hinv.1 _ _ h1) (by rw [hc]; exact Nat.lt_irrefl _)
  | none =>
    rw [createMaterialInstance_miss_some cfg st m vc h1]
    dsimp only
    have hself : alookup (aset st.matCache (matCacheKey (some m) vc)
        { inst := st.fresh, uvmap := providerUvMap (buildMatKey cfg m.mat vc) })
        (matCacheKey (some m) vc)
        = some { inst := st.fresh, uvmap := providerUvMap (buildMatKey cfg m.mat vc) } :=
      alookup_aset_self _ _ _
    rw [createMaterialInstance_hit cfg _ (some m) vc _ hself]
    refine ⟨rfl, rfl, ?_⟩
    have hother : alookup (aset st.matCache (matCacheKey (some m) vc)
        { inst := st.fresh, uvmap := providerUvMap (buildMatKey cfg m.mat vc) })
        (matCacheKey (some m) (!vc))
        = alookup st.matCache (matCacheKey (some m) (!vc)) :=
      alookup_aset_ne _ _ _ _ (Ne.symm hkey)
    cases h2 : alookup st.matCache (matCacheKey (some m) (!vc)) with
    | some e2 =>
      rw [createMaterialInstance_hit cfg _ (some m) (!vc) e2 (by rw [hother, h2])]
      have := hinv.1 _ _ h2
      omega
    | none =>
      rw [createMaterialInstance_miss_some cfg _ m (!vc) (by rw [hother, h2])]
      dsimp only
      omega

theorem c4_identity_dedup_and_vertex_color_split_witness :
    MatCacheInv initState ∧
    ((createMaterialInstance wCfg
        (createMaterialInstance wCfg initState (some wMatRefA) false).2.2
        (some wMatRefA) false).1
      = (createMaterialInstance wCfg initState (some wMatRefA) false).1 ∧
    (createMaterialInstance wCfg
        (createMaterialInstance wCfg initState (some wMatRefA) false).2.2
        (some wMatRefA) false).2.1
      = (createMaterialInstance wCfg initState (some wMatRefA) false).2.1 ∧
    (createMaterialInstance wCfg
        (createMaterialInstance wCfg initState (some wMatRefA) false).2.2
        (some wMatRefA) (!false)).1
      ≠ (createMaterialInstance wCfg initState (some wMatRefA) false).1) :=
  have hinv : MatCacheInv initState :=
    ⟨fun _ _ h => by simp [initState, alookup] at h,
     fun _ _ _ _ h1 => by simp [initState, alookup] at h1⟩
  ⟨hinv, c4_identity_dedup_and_vertex_color_split wCfg initState wMatRefA false hinv⟩

/-- C5 is violated by the code: the null-material entry is stored under
key 0 (line 598) but looked up under key `0 ^ vertexColor` (line 584), so
every call with a null material and vertex colors present misses the
cache and creates a fresh default instance.  Two such calls return
distinct instances and leave two created instances in the asset. -/
theorem c5_null_material_instance_recreated :
    (createMaterialInstance wCfg
        (createMaterialInstance wCfg initState none true).2.2 none true).1
      ≠ (createMaterialInstance wCfg initState none true).1 ∧
    (createMaterialInstance wCfg
        (createMaterialInstance wCfg initState none true).2.2 none
        true).2.2.materialInstances.length = 2 := by
  decide

end Gltfio

namespace Gltfio

/-- C2 is violated by the code: with a malformed primitive (sparse position
accessor) the traversal sets the import error flag, `createAsset` deletes
the result and nulls the pointer (lines 219-222) — and then execution
still reaches `mResult->mSkins.resize(...)` (line 226), dereferencing the
null pointer instead of returning null to the caller.  Evaluating the
embedded `createAsset` on such a document yields the null-dereference
outcome, not a null result. -/
theorem c2_error_path_dereferences_null_result :
    (runDoc wCfg wDocSparse).error = true ∧
    createAsset wCfg wDocSparse = ImportOutcome.nullDeref := by
  decide

/-- C6 is violated by the code for the topology case: a primitive with an
unsupported (triangle-strip) topology is only logged — the import error
flag stays `false`, the primitive is *not* skipped, and its geometry is
attached with the `primType` variable left uninitialized (modelled as
`none`).  The other three failure conditions (index type, element type,
sparse accessor) do set the flag and skip the primitive, but the claim
quantifies over all four. -/
theorem c6_unsupported_topology_not_flagged :
    getPrimitiveType wPrimStrip.topology = none ∧
    (runDoc wCfg wDocStrip).error = false ∧
    (runDoc wCfg wDocStrip).renderLog.map
        (fun r => r.geom.map (fun g => (g.primIndex, g.primType)))
      = [[(0, none)]] := by
  decide

theorem resolveJoints_spec (nodeMap : List (Nat × Nat)) :
    ∀ (js es : List Nat), resolveJoints nodeMap js = some es →
    es.length = js.length ∧
    ∀ i, i < js.length →
      alookup nodeMap (js.getD i 0) = some (es.getD i 0) := by
  intro js
  induction js with
  | nil =>
    intro es h
    simp only [resolveJoints, Option.some.injEq] at h
    subst h
    simp
  | cons j rest ih =>
    intro es h
    simp only [resolveJoints] at h
    cases hj : alookup nodeMap j with
    | none => rw [hj] at h; cases h
    | some e =>
      rw [hj] at h
      cases hr : resolveJoints nodeMap rest with
      | none => rw [hr] at h; cases h
      | some es2 =>
        rw [hr] at h
        simp only [Option.some.injEq] at h
        subst h
        obtain ⟨hl, hi⟩ := ih es2 hr
        refine ⟨by simp [hl], ?_⟩
        intro i hilt
        cases i with
        | zero => simpa using hj
        | succ n =>
          simp only [List.getD_cons_succ]
          exact hi n (by simpa using hilt)

/-- C10: when `importSkinningData` succeeds, the resulting skin's joint
entity list has exactly the declared length and its i-th entry is exactly
the node-map image of the i-th declared joint node — order preserved. -/
theorem c10_skin_joint_order (nodeMap : List (Nat × Nat)) (src : CSkin)
    (dst : Skin) (h : importSkinningData nodeMap src = some dst) :
    dst.joints.length = src.joints.length ∧
    ∀ i, i < src.joints.length →
      alookup nodeMap (src.joints.getD i 0) = some (dst.joints.getD i 0) := by
  unfold importSkinningData at h
  cases hr : resolveJoints nodeMap src.joints with
  | none => rw [hr] at h; cases h
  | some js =>
    rw [hr] at h
    simp only [Option.some.injEq] at h
    subst h
    exact resolveJoints_spec nodeMap src.joints js hr

theorem c10_skin_joint_order_witness :
    (importSkinningData [(5, 100), (6, 200)] { name := some "skin", joints := [6, 5] }
      = some { name := some "skin", joints := [200, 100], targets := [] }) ∧
    ((Skin.joints { name := some "skin", joints := [200, 100], targets := [] }).length
      = (CSkin.joints { name := some "skin", joints := [6, 5] }).length ∧
    ∀ i, i < (CSkin.joints { name := some "skin", joints := [6, 5] }).length →
      alookup [(5, 100), (6, 200)]
          ((CSkin.joints { name := some "skin", joints := [6, 5] }).getD i 0)
        = some ((Skin.joints { name := some "skin", joints := [200, 100], targets := [] }).getD i 0)) :=
  ⟨by decide,
   c10_skin_joint_order [(5, 100), (6, 200)] { name := some "skin", joints := [6, 5] }
     { name := some "skin", joints := [200, 100], targets := [] } (by decide)⟩

end Gltfio

namespace Gltfio

theorem aabbContains_refl (a : Aabb) : aabbContains a a := by
  unfold aabbContains
  exact ⟨le_refl _, le_refl _, le_refl _, le_refl _, le_refl _, le_refl _⟩

theorem aabbContains_trans {a b c : Aabb} (h1 : aabbContains a b)
    (h2 : aabbContains b c) : aabbContains a c := by
  unfold aabbContains at h1 h2 ⊢
  obtain ⟨x1, y1, z1, u1, v1, w1⟩ := h1
  obtain ⟨x2, y2, z2, u2, v2, w2⟩ := h2
  exact ⟨le_trans x1 x2, le_trans y1 y2, le_trans z1 z2,
    le_trans u2 u1, le_trans v2 v1, le_trans w2 w1⟩

theorem qmin_le_left (a b : ℚ) : qmin a b ≤ a := by
  unfold qmin
  by_cases h : a ≤ b
  · simp [h]
  · simp only [h, reduceIte]
    exact (not_le.mp h).le

theorem qmin_le_right (a b : ℚ) : qmin a b ≤ b := by
  unfold qmin
  by_cases h : a ≤ b
  · simp [h]
  · simp [h]

theorem le_qmax_left (a b : ℚ) : a ≤ qmax a b := by
  unfold qmax
  by_cases h : a ≤ b
  · simp [h]
  · simp [h]

theorem le_qmax_right (a b : ℚ) : b ≤ qmax a b := by
  unfold qmax
  by_cases h : a ≤ b
  · simp [h]
  · simp only [h, reduceIte]
    exact (not_le.mp h).le

theorem union_contains_left (a b : Aabb) :
    aabbContains { min := vmin a.min b.min, max := vmax a.max b.max } a := by
  unfold aabbContains vmin vmax
  exact ⟨qmin_le_left _ _, qmin_le_left _ _, qmin_le_left _ _,
    le_qmax_left _ _, le_qmax_left _ _, le_qmax_left _ _⟩

theorem union_contains_right (a b : Aabb) :
    aabbContains { min := vmin a.min b.min, max := vmax a.max b.max } b := by
  unfold aabbContains vmin vmax
  exact ⟨qmin_le_right _ _, qmin_le_right _ _, qmin_le_right _ _,
    le_qmax_right _ _, le_qmax_right _ _, le_qmax_right _ _⟩

theorem cmi_preserves (cfg : LoaderConfig) (st : LoaderState)
    (im : Option MatRef) (vc : Bool) :
    (createMaterialInstance cfg st im vc).2.2.bbox = st.bbox ∧
    (createMaterialInstance cfg st im vc).2.2.contribLog = st.contribLog ∧
    (createMaterialInstance cfg st im vc).2.2.renderLog = st.renderLog ∧
    (createMaterialInstance cfg st im vc).2.2.meshCache = st.meshCache ∧
    (createMaterialInstance cfg st im vc).2.2.error = st.error ∧
    (createMaterialInstance cfg st im vc).2.2.buildLog = st.buildLog ∧
    (createMaterialInstance cfg st im vc).2.2.nodeMap = st.nodeMap ∧
    (createMaterialInstance cfg st im vc).2.2.entities = st.entities := by
  cases h : alookup st.matCache (matCacheKey im vc) with
  | some e =>
    rw [createMaterialInstance_hit cfg st im vc e h]
    exact ⟨rfl, rfl, rfl, rfl, rfl, rfl, rfl, rfl⟩
  | none =>
    cases im with
    | none =>
      rw [createMaterialInstance_miss_null cfg st vc h]
      exact ⟨rfl, rfl, rfl, rfl, rfl, rfl, rfl, rfl⟩
    | some m =>
      rw [createMaterialInstance_miss_some cfg st m vc h]
      exact ⟨rfl, rfl, rfl, rfl, rfl, rfl, rfl, rfl⟩

theorem vertexPart_preserves (cfg : LoaderConfig) (stv : LoaderState)
    (inPrim : CPrimitive) (outPrim : Primitive) (uvmap : UvMap) (ib : Nat) :
    (vertexPart cfg stv inPrim outPrim uvmap ib).2.1.bbox = stv.bbox ∧
    (vertexPart cfg stv inPrim outPrim uvmap ib).2.1.contribLog = stv.contribLog ∧
    (vertexPart cfg stv inPrim outPrim uvmap ib).2.1.renderLog = stv.renderLog ∧
    (vertexPart cfg stv inPrim outPrim uvmap ib).2.1.meshCache = stv.meshCache ∧
    (vertexPart cfg stv inPrim outPrim uvmap ib).2.1.error = stv.error ∧
    (vertexPart cfg stv inPrim outPrim uvmap ib).2.1.buildLog = stv.buildLog ∧
    (vertexPart cfg stv inPrim outPrim uvmap ib).2.1.nodeMap = stv.nodeMap ∧
    (vertexPart cfg stv inPrim outPrim uvmap ib).2.1.entities = stv.entities := by
  cases hscan : scanAttributes uvmap (initialPass1 outPrim.aabb) inPrim.attributes with
  | error accP =>
    rw [vertexPart_fail cfg stv inPrim outPrim uvmap ib accP hscan]
    exact ⟨rfl, rfl, rfl, rfl, rfl, rfl, rfl, rfl⟩
  | ok acc1 =>
    cases hnd : (applyDummy cfg acc1).1 with
    | false =>
      rw [vertexPart_ok_nodummy cfg stv inPrim outPrim uvmap ib acc1 hscan hnd]
      exact ⟨rfl, rfl, rfl, rfl, rfl, rfl, rfl, rfl⟩
    | true =>
      rw [vertexPart_ok_dummy cfg stv inPrim outPrim uvmap ib acc1 hscan hnd]
      exact ⟨rfl, rfl, rfl, rfl, rfl, rfl, rfl, rfl⟩

theorem cp_preserves (cfg : LoaderConfig) (st : LoaderState)
    (meshId primIndex : Nat) (inPrim : CPrimitive) (outPrim : Primitive)
    (uvmap : UvMap) :
    (createPrimitive cfg st meshId primIndex inPrim outPrim uvmap).2.1.bbox = st.bbox ∧
    (createPrimitive cfg st meshId primIndex inPrim outPrim uvmap).2.1.contribLog
      = st.contribLog ∧
    (createPrimitive cfg st meshId primIndex inPrim outPrim uvmap).2.1.renderLog
      = st.renderLog ∧
    (createPrimitive cfg st meshId primIndex inPrim outPrim uvmap).2.1.meshCache
      = st.meshCache ∧
    (createPrimitive cfg st meshId primIndex inPrim outPrim uvmap).2.1.error = st.error ∧
    (createPrimitive cfg st meshId primIndex inPrim outPrim uvmap).2.1.buildLog
      = st.buildLog ++ [(meshId, primIndex)] ∧
    (createPrimitive cfg st meshId primIndex inPrim outPrim uvmap).2.1.nodeMap
      = st.nodeMap ∧
    (createPrimitive cfg st meshId primIndex inPrim outPrim uvmap).2.1.entities
      = st.entities := by
  cases hidx : inPrim.indices with
  | some iacc =>
    cases hit : getIndexType iacc.componentType with
    | none =>
      rw [createPrimitive_badIdx cfg st meshId primIndex inPrim outPrim uvmap iacc hidx hit]
      exact ⟨rfl, rfl, rfl, rfl, rfl, rfl, rfl, rfl⟩
    | some itype =>
      rw [createPrimitive_someIdx cfg st meshId primIndex inPrim outPrim uvmap iacc itype
        hidx hit]
      have := vertexPart_preserves cfg
        { st with
          buildLog := st.buildLog ++ [(meshId, primIndex)]
          fresh := st.fresh + 1
          bufferBindings := st.bufferBindings ++ [indexStreamBinding iacc st.fresh]
          indexBuffers := st.indexBuffers ++ [(st.fresh, iacc.count, itype)] }
        inPrim outPrim uvmap st.fresh
      exact this
  | none =>
    rw [createPrimitive_noIdx cfg st meshId primIndex inPrim outPrim uvmap hidx]
    have := vertexPart_preserves cfg
      { st with
        buildLog := st.buildLog ++ [(meshId, primIndex)]
        fresh := st.fresh + 1
        bufferBindings := st.bufferBindings ++
          [trivialIndexBinding st.fresh (inPrim.attributes.headD defaultAttribute).data.count]
        indexBuffers := st.indexBuffers ++
          [(st.fresh, (inPrim.attributes.headD defaultAttribute).data.count, .uint)] }
      inPrim outPrim uvmap st.fresh
    exact this

theorem primLoop_preserves (cfg : LoaderConfig) (mesh : CMesh) :
    ∀ (prims : List CPrimitive) (st : LoaderState) (p : Nat) (aabb : Aabb)
    (geom : List RenderGeom),
    (primLoop cfg st mesh p prims aabb geom).1.bbox = st.bbox ∧
    (primLoop cfg st mesh p prims aabb geom).1.contribLog = st.contribLog ∧
    (primLoop cfg st mesh p prims aabb geom).1.renderLog = st.renderLog ∧
    (primLoop cfg st mesh p prims aabb geom).1.nodeMap = st.nodeMap ∧
    (primLoop cfg st mesh p prims aabb geom).1.entities = st.entities := by
  intro prims
  induction prims with
  | nil =>
    intro st p aabb geom
    exact ⟨rfl, rfl, rfl, rfl, rfl⟩
  | cons inputPrim rest ih =>
    intro st p aabb geom
    simp only [primLoop]
    obtain ⟨m1, m2, m3, m4, m5, _, m7, m8⟩ :=
      cmi_preserves cfg st inputPrim.material (primitiveHasVertexColor inputPrim)
    set stm := (createMaterialInstance cfg st inputPrim.material
      (primitiveHasVertexColor inputPrim)).2.2 with hstm
    split
    · obtain ⟨p1, p2, p3, _, _, _, p7, p8⟩ := cp_preserves cfg stm mesh.id p inputPrim
        (((alookup stm.meshCache mesh.id).getD []).getD p defaultPrimitive)
        (createMaterialInstance cfg st inputPrim.material
          (primitiveHasVertexColor inputPrim)).2.1
      set stc := (createPrimitive cfg stm mesh.id p inputPrim
        (((alookup stm.meshCache mesh.id).getD []).getD p defaultPrimitive)
        (createMaterialInstance cfg st inputPrim.material
          (primitiveHasVertexColor inputPrim)).2.1).2.1 with hstc
      split
      · obtain ⟨q1, q2, q3, q4, q5⟩ := ih _ (p + 1) _ _
        rw [q1, q2, q3, q4, q5]
        dsimp only
        rw [p1, p2, p3, p7, p8, m1, m2, m3, m7, m8]
        exact ⟨rfl, rfl, rfl, rfl, rfl⟩
      · obtain ⟨q1, q2, q3, q4, q5⟩ := ih _ (p + 1) _ _
        rw [q1, q2, q3, q4, q5]
        dsimp only
        rw [p1, p2, p3, p7, p8, m1, m2, m3, m7, m8]
        exact ⟨rfl, rfl, rfl, rfl, rfl⟩
    · obtain ⟨q1, q2, q3, q4, q5⟩ := ih _ (p + 1) _ _
      rw [q1, q2, q3, q4, q5, m1, m2, m3, m7, m8]
      exact ⟨rfl, rfl, rfl, rfl, rfl⟩

end Gltfio

namespace Gltfio

theorem processFlat_append (cfg : LoaderConfig) :
    ∀ (l1 l2 : List FlatNode) (st : LoaderState),
    processFlat cfg st (l1 ++ l2) = processFlat cfg (processFlat cfg st l1) l2 := by
  intro l1
  induction l1 with
  | nil => intro l2 st; rfl
  | cons fn rest ih =>
    intro l2 st
    simp only [List.cons_append, processFlat]
    exact ih l2 _

theorem createEntityForest_eq_processFlat (cfg : LoaderConfig) :
    ∀ (f : CForest) (st : LoaderState) (pw : Mat4),
    createEntityForest cfg st pw f = processFlat cfg st (flattenForest pw f) := by
  intro f
  induction f with
  | nil => intro st pw; rfl
  | cons d children siblings ihc ihs =>
    intro st pw
    simp only [createEntityForest, flattenForest, processFlat, processFlat_append]
    rw [ihc, ihs]

theorem runDoc_eq_processFlat (cfg : LoaderConfig) (doc : CDocument) :
    runDoc cfg doc = processFlat cfg (traversalStart doc) (flatDoc doc) := by
  unfold runDoc traversalStart flatDoc
  cases doc.scene.orElse (fun _ => doc.scenes.head?) with
  | none => rfl
  | some scene => exact createEntityForest_eq_processFlat cfg scene.nodes _ _

end Gltfio

namespace Gltfio

theorem createRenderable_box (cfg : LoaderConfig) (st : LoaderState)
    (mesh : CMesh) (entity : Nat) (world : Mat4) :
    ∃ wbox, (createRenderable cfg st mesh entity world).bbox
        = { min := vmin st.bbox.min wbox.min, max := vmax st.bbox.max wbox.max } ∧
      (createRenderable cfg st mesh entity world).contribLog
        = st.contribLog ++ [wbox] := by
  unfold createRenderable
  cases halc : alookup st.meshCache mesh.id with
  | none =>
    simp only [halc]
    obtain ⟨q1, q2, _, _, _⟩ := primLoop_preserves cfg mesh mesh.primitives
      { st with meshCache := aset st.meshCache mesh.id (List.replicate mesh.primitives.length defaultPrimitive) }
      0 emptyAabb []
    exact ⟨_, by rw [q1], by rw [q2]⟩
  | some l =>
    simp only [halc]
    obtain ⟨q1, q2, _, _, _⟩ := primLoop_preserves cfg mesh mesh.primitives st 0 emptyAabb []
    exact ⟨_, by rw [q1], by rw [q2]⟩

theorem step_box (cfg : LoaderConfig) (st : LoaderState) (d : CNodeData)
    (world : Mat4) (h : ∀ b ∈ st.contribLog, aabbContains st.bbox b) :
    (∀ b ∈ (createEntityStep cfg st d world).contribLog,
      aabbContains (createEntityStep cfg st d world).bbox b) ∧
    aabbContains (createEntityStep cfg st d world).bbox st.bbox := by
  unfold createEntityStep
  simp only [alloc]
  cases hm : d.mesh with
  | none => exact ⟨h, aabbContains_refl _⟩
  | some mesh =>
    obtain ⟨wbox, hb, hc⟩ := createRenderable_box cfg
      { st with
        fresh := st.fresh + 1
        entities := st.entities ++ [st.fresh]
        nodeMap := aset st.nodeMap d.id st.fresh }
      mesh st.fresh world
    rw [hb, hc]
    dsimp only
    constructor
    · intro b hbmem
      rcases List.mem_append.mp hbmem with h1 | h2
      · exact aabbContains_trans (union_contains_left _ _) (h b h1)
      · simp only [List.mem_singleton] at h2
        subst h2
        exact union_contains_right _ _
    · exact union_contains_left _ _

theorem processFlat_box (cfg : LoaderConfig) :
    ∀ (ns : List FlatNode) (st : LoaderState),
    (∀ b ∈ st.contribLog, aabbContains st.bbox b) →
    (∀ b ∈ (processFlat cfg st ns).contribLog,
      aabbContains (processFlat cfg st ns).bbox b) ∧
    aabbContains (processFlat cfg st ns).bbox st.bbox := by
  intro ns
  induction ns with
  | nil => intro st h; exact ⟨h, aabbContains_refl _⟩
  | cons fn rest ih =>
    intro st h
    obtain ⟨h1, h2⟩ := step_box cfg st fn.data fn.world h
    obtain ⟨h3, h4⟩ := ih (createEntityStep cfg st fn.data fn.world) h1
    exact ⟨h3, aabbContains_trans h4 h2⟩

/-- C9: the import's world-space bounding box contains every renderable's
contribution (the box obtained by transforming the 8 corners of the
renderable's aggregated object-space box by the node's accumulated world
transform and re-bounding — exactly what `createRenderable` logs in
`contribLog`), and the box only grows during traversal: the box after any
traversal prefix is contained in the final box. -/
theorem c9_world_bbox_union (cfg : LoaderConfig) (doc : CDocument) :
    (∀ b ∈ (runDoc cfg doc).contribLog, aabbContains (runDoc cfg doc).bbox b) ∧
    ∀ l1 l2, flatDoc doc = l1 ++ l2 →
      aabbContains (runDoc cfg doc).bbox
        (processFlat cfg (traversalStart doc) l1).bbox := by
  have hstart : ∀ b ∈ (traversalStart doc).contribLog,
      aabbContains (traversalStart doc).bbox b := by
    unfold traversalStart
    cases doc.scene.orElse (fun _ => doc.scenes.head?) with
    | none => intro b hb; simp [initState] at hb
    | some scene => intro b hb; simp [alloc, initState] at hb
  constructor
  · rw [runDoc_eq_processFlat]
    exact (processFlat_box cfg (flatDoc doc) (traversalStart doc) hstart).1
  · intro l1 l2 hsplit
    rw [runDoc_eq_processFlat, hsplit, processFlat_append]
    obtain ⟨hinv1, _⟩ := processFlat_box cfg l1 (traversalStart doc) hstart
    exact (processFlat_box cfg l2 (processFlat cfg (traversalStart doc) l1) hinv1).2

theorem c9_world_bbox_union_witness :
    aabbContains (runDoc wCfg wDoc).bbox
      { min := ⟨0, 0, 0⟩, max := ⟨1, 2, 1⟩ } ∧
    aabbContains (runDoc wCfg wDoc).bbox
      (processFlat wCfg (traversalStart wDoc) []).bbox :=
  ⟨(c9_world_bbox_union wCfg wDoc).1 _
    (by
      rw [show (runDoc wCfg wDoc).contribLog
          = [{ min := ⟨0, 0, 0⟩, max := ⟨1, 2, 1⟩ }] from by with_unfolding_all decide]
      exact List.mem_singleton_self _),
   (c9_world_bbox_union wCfg wDoc).2 [] (flatDoc wDoc) rfl⟩

end Gltfio

namespace Gltfio

theorem writeMeshPrim_self (c : List (Nat × List Primitive)) (mid p : Nat)
    (pr : Primitive) (l : List Primitive) (h : alookup c mid = some l) :
    alookup (writeMeshPrim c mid p pr) mid = some (l.set p pr) := by
  unfold writeMeshPrim
  rw [h]
  exact alookup_aset_self c mid (l.set p pr)

theorem writeMeshPrim_ne (c : List (Nat × List Primitive)) (mid p : Nat)
    (pr : Primitive) (M2 : Nat) (h : M2 ≠ mid) :
    alookup (writeMeshPrim c mid p pr) M2 = alookup c M2 := by
  unfold writeMeshPrim
  cases hl : alookup c mid with
  | none => rfl
  | some l => exact alookup_aset_ne c mid M2 (l.set p pr) h

theorem primLoop_error_mono (cfg : LoaderConfig) (mesh : CMesh) :
    ∀ (prims : List CPrimitive) (st : LoaderState) (p : Nat) (aabb : Aabb)
    (geom : List RenderGeom), st.error = true →
    (primLoop cfg st mesh p prims aabb geom).1.error = true := by
  intro prims
  induction prims with
  | nil => intro st p aabb geom h; exact h
  | cons inputPrim rest ih =>
    intro st p aabb geom h
    simp only [primLoop]
    obtain ⟨_, _, _, _, m5, _, _, _⟩ :=
      cmi_preserves cfg st inputPrim.material (primitiveHasVertexColor inputPrim)
    split
    · obtain ⟨_, _, _, _, p5, _, _, _⟩ := cp_preserves cfg _ mesh.id p inputPrim _ _
      split
      · apply ih
        dsimp only
        rw [p5, m5]
        exact h
      · apply ih
        rfl
    · apply ih
      rw [m5]
      exact h

theorem geomOfFrom_zero (mesh : CMesh) (l : List Primitive) (p : Nat) :
    geomOfFrom mesh l p 0 = [] := rfl

theorem geomOfFrom_succ (mesh : CMesh) (l : List Primitive) (p n : Nat) :
    geomOfFrom mesh l p (n + 1) =
      { primIndex := p
        primType := getPrimitiveType ((mesh.primitives.getD p defaultCPrimitive).topology)
        vertices := ((l.getD p defaultPrimitive).vertices).getD 0
        indices := ((l.getD p defaultPrimitive).indices).getD 0 } ::
      geomOfFrom mesh l (p + 1) n := by
  unfold geomOfFrom
  rw [List.range_succ_eq_map, List.map_cons, List.map_map]
  simp only [Nat.add_zero]
  congr 1
  apply List.map_congr_left
  intro i _
  simp only [Function.comp_apply, Nat.succ_eq_add_one]
  have hq : p + (i + 1) = p + 1 + i := by omega
  rw [hq]

end Gltfio

namespace Gltfio

theorem vertexPart_ok_built (cfg : LoaderConfig) (stv : LoaderState)
    (inPrim : CPrimitive) (outPrim : Primitive) (uvmap : UvMap) (ib : Nat)
    (hok : (vertexPart cfg stv inPrim outPrim uvmap ib).1 = true) :
    ((vertexPart cfg stv inPrim outPrim uvmap ib).2.2.vertices).isSome = true ∧
    ((vertexPart cfg stv inPrim outPrim uvmap ib).2.2.indices).isSome = true := by
  cases hscan : scanAttributes uvmap (initialPass1 outPrim.aabb) inPrim.attributes with
  | error accP =>
    rw [vertexPart_fail cfg stv inPrim outPrim uvmap ib accP hscan] at hok
    cases hok
  | ok acc1 =>
    cases hnd : (applyDummy cfg acc1).1 with
    | false =>
      rw [vertexPart_ok_nodummy cfg stv inPrim outPrim uvmap ib acc1 hscan hnd]
      exact ⟨rfl, rfl⟩
    | true =>
      rw [vertexPart_ok_dummy cfg stv inPrim outPrim uvmap ib acc1 hscan hnd]
      exact ⟨rfl, rfl⟩

theorem createPrimitive_ok_built (cfg : LoaderConfig) (st : LoaderState)
    (meshId primIndex : Nat) (inPrim : CPrimitive) (outPrim : Primitive)
    (uvmap : UvMap)
    (hok : (createPrimitive cfg st meshId primIndex inPrim outPrim uvmap).1 = true) :
    ((createPrimitive cfg st meshId primIndex inPrim outPrim uvmap).2.2.vertices).isSome
      = true ∧
    ((createPrimitive cfg st meshId primIndex inPrim outPrim uvmap).2.2.indices).isSome
      = true := by
  cases hidx : inPrim.indices with
  | some iacc =>
    cases hit : getIndexType iacc.componentType with
    | none =>
      rw [createPrimitive_badIdx cfg st meshId primIndex inPrim outPrim uvmap iacc hidx hit]
        at hok
      cases hok
    | some itype =>
      rw [createPrimitive_someIdx cfg st meshId primIndex inPrim outPrim uvmap iacc itype
        hidx hit] at hok ⊢
      exact vertexPart_ok_built cfg _ inPrim outPrim uvmap st.fresh hok
  | none =>
    rw [createPrimitive_noIdx cfg st meshId primIndex inPrim outPrim uvmap hidx] at hok ⊢
    exact vertexPart_ok_built cfg _ inPrim outPrim uvmap st.fresh hok

end Gltfio

namespace Gltfio

theorem primLoop_spec (cfg : LoaderConfig) (mesh : CMesh) :
    ∀ (prims : List CPrimitive) (p : Nat) (st : LoaderState) (aabb : Aabb)
    (geom : List RenderGeom) (l0 : List Primitive),
    mesh.primitives.drop p = prims →
    alookup st.meshCache mesh.id = some l0 →
    l0.length = mesh.primitives.length →
    (primLoop cfg st mesh p prims aabb geom).1.error = false →
    BuildOnce st →
    CachePairs st →
    ∃ l1,
      alookup (primLoop cfg st mesh p prims aabb geom).1.meshCache mesh.id = some l1 ∧
      l1.length = l0.length ∧
      (∀ q, q < p → l1.getD q defaultPrimitive = l0.getD q defaultPrimitive) ∧
      (∀ q, ((l0.getD q defaultPrimitive).vertices).isSome = true →
        l1.getD q defaultPrimitive = l0.getD q defaultPrimitive) ∧
      (∀ q, p ≤ q → q < p + prims.length →
        ((l1.getD q defaultPrimitive).vertices).isSome = true ∧
        ((l1.getD q defaultPrimitive).indices).isSome = true) ∧
      (primLoop cfg st mesh p prims aabb geom).2.2
        = geom ++ geomOfFrom mesh l1 p prims.length ∧
      (∀ M2, M2 ≠ mesh.id →
        alookup (primLoop cfg st mesh p prims aabb geom).1.meshCache M2
          = alookup st.meshCache M2) ∧
      BuildOnce (primLoop cfg st mesh p prims aabb geom).1 ∧
      (primLoop cfg st mesh p prims aabb geom).1.renderLog = st.renderLog ∧
      CachePairs (primLoop cfg st mesh p prims aabb geom).1 := by
  intro prims
  induction prims with
  | nil =>
    intro p st aabb geom l0 hdrop h0 hlen herr hbo hcp
    refine ⟨l0, h0, rfl, fun q _ => rfl, fun q _ => rfl, ?_, ?_, fun M2 _ => rfl, hbo, rfl, hcp⟩
    · intro q hq1 hq2
      simp only [List.length_nil] at hq2
      omega
    · simp [primLoop, geomOfFrom]
  | cons inputPrim rest ih =>
    intro p st aabb geom l0 hdrop h0 hlen herr hbo hcp
    have hple : p < mesh.primitives.length := by
      by_contra hcon
      push_neg at hcon
      rw [List.drop_eq_nil_of_le hcon] at hdrop
      cases hdrop
    have hplel : p < l0.length := by omega
    have hid : mesh.primitives[p]? = some inputPrim := by
      have h00 : (mesh.primitives.drop p)[0]? = some inputPrim := by rw [hdrop]; simp
      rw [List.getElem?_drop] at h00
      simpa using h00
    have hInput : mesh.primitives.getD p defaultCPrimitive = inputPrim := by
      rw [List.getD_eq_getElem?_getD, hid]
      rfl
    have hdroprest : mesh.primitives.drop (p + 1) = rest := by
      rw [← List.tail_drop, hdrop]
      rfl
    obtain ⟨m1, m2, m3, m4, m5, m6, m7, m8⟩ :=
      cmi_preserves cfg st inputPrim.material (primitiveHasVertexColor inputPrim)
    simp only [primLoop] at herr ⊢
    rw [m4, h0] at herr ⊢
    simp only [Option.getD_some] at herr ⊢
    have hbo2 : BuildOnce (createMaterialInstance cfg st inputPrim.material
        (primitiveHasVertexColor inputPrim)).2.2 := by
      unfold BuildOnce at hbo ⊢
      rw [m4, m6]
      exact hbo
    have hcp2 : CachePairs (createMaterialInstance cfg st inputPrim.material
        (primitiveHasVertexColor inputPrim)).2.2 := by
      unfold CachePairs at hcp ⊢
      rw [m4]
      exact hcp
    cases hv : (l0.getD p defaultPrimitive).vertices with
    | some v =>
      rw [hv] at herr
      simp only [reduceCtorEq, reduceIte] at herr ⊢
      have h02 : alookup (createMaterialInstance cfg st inputPrim.material
          (primitiveHasVertexColor inputPrim)).2.2.meshCache mesh.id = some l0 := by
        rw [m4]
        exact h0
      obtain ⟨l1, ha, hb, hc, hd, he, hf, hg, hh, hi, hj⟩ :=
        ih (p + 1) _ _ _ l0 hdroprest h02 hlen herr hbo2 hcp2
      have hstable : l1.getD p defaultPrimitive = l0.getD p defaultPrimitive := by
        apply hd
        rw [hv]
        rfl
      refine ⟨l1, ha, hb, ?_, hd, ?_, ?_, ?_, hh, ?_, hj⟩
      · intro q hq
        exact hc q (by omega)
      · intro q hq1 hq2
        rcases Nat.eq_or_lt_of_le hq1 with hq | hq
        · subst hq
          rw [hstable, hv]
          refine ⟨rfl, ?_⟩
          have hmem : l0.getD p defaultPrimitive ∈ l0 := by
            rw [List.getD_eq_getElem l0 defaultPrimitive hplel]
            exact List.getElem_mem hplel
          exact hcp mesh.id l0 h0 _ hmem (by rw [hv]; rfl)
        · have hq2b : q < p + 1 + rest.length := by
            simp at hq2
            omega
          exact he q hq hq2b
      · rw [hf]
        have hlen1 : (inputPrim :: rest).length = rest.length + 1 := by simp
        rw [hlen1, geomOfFrom_succ, hInput, hstable, hv]
        simp
      · intro M2 hne
        rw [hg M2 hne, m4]
      · rw [hi, m3]
    | none =>
      rw [hv] at herr
      simp only [reduceIte] at herr ⊢
      obtain ⟨p1, p2, p3, p4, p5, p6, p7, p8⟩ :=
        cp_preserves cfg (createMaterialInstance cfg st inputPrim.material
          (primitiveHasVertexColor inputPrim)).2.2 mesh.id p inputPrim
          (l0.getD p defaultPrimitive)
          (createMaterialInstance cfg st inputPrim.material
            (primitiveHasVertexColor inputPrim)).2.1
      cases hok : (createPrimitive cfg (createMaterialInstance cfg st inputPrim.material
          (primitiveHasVertexColor inputPrim)).2.2 mesh.id p inputPrim
          (l0.getD p defaultPrimitive)
          (createMaterialInstance cfg st inputPrim.material
            (primitiveHasVertexColor inputPrim)).2.1).1 with
      | false =>
        rw [hok] at herr
        simp only [Bool.false_eq_true, reduceIte] at herr ⊢
        exfalso
        have hfe : ∀ st2 : LoaderState,
            (primLoop cfg st2 mesh (p + 1) rest aabb geom).1.error = false →
            st2.error = false := by
          intro st2 h2
          cases hE : st2.error
          · rfl
          · rw [primLoop_error_mono cfg mesh rest st2 (p + 1) aabb geom hE] at h2
            cases h2
        have hbad := hfe _ herr
        simp only at hbad
        cases hbad
      | true =>
        rw [hok] at herr
        simp only [reduceIte] at herr ⊢
        obtain ⟨hbuiltv, hbuilti⟩ := createPrimitive_ok_built cfg _ mesh.id p inputPrim
          (l0.getD p defaultPrimitive) _ hok
        set out2 := (createPrimitive cfg (createMaterialInstance cfg st inputPrim.material
          (primitiveHasVertexColor inputPrim)).2.2 mesh.id p inputPrim
          (l0.getD p defaultPrimitive)
          (createMaterialInstance cfg st inputPrim.material
            (primitiveHasVertexColor inputPrim)).2.1).2.2 with hout2
        set stcp := (createPrimitive cfg (createMaterialInstance cfg st inputPrim.material
          (primitiveHasVertexColor inputPrim)).2.2 mesh.id p inputPrim
          (l0.getD p defaultPrimitive)
          (createMaterialInstance cfg st inputPrim.material
            (primitiveHasVertexColor inputPrim)).2.1).2.1 with hstcp
        have hlook3 : alookup (writeMeshPrim stcp.meshCache mesh.id p out2)
            mesh.id = some (l0.set p out2) := by
          apply writeMeshPrim_self
          rw [p4, m4]
          exact h0
        have hmemlog : (mesh.id, p) ∉ st.buildLog := by
          intro hmem
          obtain ⟨l, hl, hlv⟩ := (hbo mesh.id p).2 hmem
          rw [h0] at hl
          injection hl with hl
          subst hl
          rw [hv] at hlv
          cases hlv
        have hlogE : stcp.buildLog = st.buildLog ++ [(mesh.id, p)] := by
          rw [p6, m6]
        have hl0p : (l0.set p out2).getD p defaultPrimitive = out2 := by
          rw [List.getD_eq_getElem?_getD, List.getElem?_set_self hplel]
          rfl
        have hl0ne : ∀ q, q ≠ p →
            (l0.set p out2).getD q defaultPrimitive = l0.getD q defaultPrimitive := by
          intro q hq
          rw [List.getD_eq_getElem?_getD, List.getD_eq_getElem?_getD,
            List.getElem?_set_ne (fun hEq => hq hEq.symm)]
        have hbo3 : BuildOnce { stcp with
            meshCache := writeMeshPrim stcp.meshCache mesh.id p out2 } := by
          intro M q'
          dsimp only
          rw [hlogE]
          constructor
          · rw [List.filter_append, List.length_append]
            have hA := (hbo M q').1
            by_cases hMq : (mesh.id, p) = (M, q')
            · have h1 : (st.buildLog.filter (fun e => decide (e = (M, q')))).length = 0 := by
                rw [List.length_eq_zero, List.filter_eq_nil_iff]
                intro a ha hfa
                rw [decide_eq_true_eq] at hfa
                rw [hfa, ← hMq] at ha
                exact hmemlog ha
              have h2 := List.length_filter_le
                (fun e => decide (e = (M, q'))) [(mesh.id, p)]
              simp only [List.length_singleton] at h2
              omega
            · have h2 : (([(mesh.id, p)]).filter
                  (fun e => decide (e = (M, q')))).length = 0 := by
                rw [List.length_eq_zero, List.filter_eq_nil_iff]
                intro a ha hfa
                rw [decide_eq_true_eq] at hfa
                simp only [List.mem_singleton] at ha
                rw [ha] at hfa
                exact hMq hfa
              omega
          · intro hmem
            rw [List.mem_append] at hmem
            rcases hmem with hmem | hmem
            · obtain ⟨l, hl, hlv⟩ := (hbo M q').2 hmem
              by_cases hM : M = mesh.id
              · subst hM
                rw [h0] at hl
                injection hl with hl
                subst hl
                have hq'ne : q' ≠ p := by
                  intro hEq
                  rw [hEq, hv] at hlv
                  cases hlv
                refine ⟨l0.set p out2, hlook3, ?_⟩
                rw [hl0ne q' hq'ne]
                exact hlv
              · refine ⟨l, ?_, hlv⟩
                rw [writeMeshPrim_ne stcp.meshCache mesh.id p out2 M hM, p4, m4]
                exact hl
            · simp only [List.mem_singleton, Prod.mk.injEq] at hmem
              obtain ⟨hM, hq⟩ := hmem
              subst hM
              refine ⟨l0.set p out2, hlook3, ?_⟩
              rw [hq, hl0p]
              exact hbuiltv
        have hcp3 : CachePairs { stcp with
            meshCache := writeMeshPrim stcp.meshCache mesh.id p out2 } := by
          intro mid l hl pr hpr hprv
          dsimp only at hl
          by_cases hM : mid = mesh.id
          · subst hM
            rw [hlook3] at hl
            injection hl with hl
            subst hl
            rcases List.mem_or_eq_of_mem_set hpr with hpr0 | hpr0
            · exact hcp mesh.id l0 h0 pr hpr0 hprv
            · rw [hpr0]
              exact hbuilti
          · rw [writeMeshPrim_ne stcp.meshCache mesh.id p out2 mid hM, p4, m4] at hl
            exact hcp mid l hl pr hpr hprv
        obtain ⟨l1, ha, hb, hc, hd, he, hf, hg, hh, hi, hj⟩ :=
          ih (p + 1) _ _ _ (l0.set p out2) hdroprest
            (by exact hlook3)
            (by rw [List.length_set]; exact hlen)
            herr hbo3 hcp3
        have hstab1 : l1.getD p defaultPrimitive = out2 := by
          have hx := hd p (by rw [hl0p]; exact hbuiltv)
          rw [hx, hl0p]
        refine ⟨l1, ha, ?_, ?_, ?_, ?_, ?_, ?_, hh, ?_, hj⟩
        · rw [hb, List.length_set]
        · intro q hq
          rw [hc q (by omega), hl0ne q (by omega)]
        · intro q hql0v
          have hqne : q ≠ p := by
            intro hEq
            rw [hEq, hv] at hql0v
            cases hql0v
          have hx := hd q (by rw [hl0ne q hqne]; exact hql0v)
          rw [hx, hl0ne q hqne]
        · intro q hq1 hq2
          rcases Nat.eq_or_lt_of_le hq1 with hq | hq
          · subst hq
            rw [hstab1]
            exact ⟨hbuiltv, hbuilti⟩
          · have hq2b : q < p + 1 + rest.length := by
              simp at hq2
              omega
            exact he q hq hq2b
        · rw [hf]
          have hlen1 : (inputPrim :: rest).length = rest.length + 1 := by simp
          rw [hlen1, geomOfFrom_succ, hInput, hstab1]
          simp
        · intro M2 hne
          rw [hg M2 hne]
          show alookup (writeMeshPrim stcp.meshCache mesh.id p out2) M2 = _
          rw [writeMeshPrim_ne stcp.meshCache mesh.id p out2 M2 hne, p4, m4]
        · rw [hi]
          show stcp.renderLog = st.renderLog
          rw [p3, m3]
end Gltfio

namespace Gltfio

theorem primLoop_error_back (cfg : LoaderConfig) (mesh : CMesh)
    (prims : List CPrimitive) (st : LoaderState) (p : Nat) (aabb : Aabb)
    (geom : List RenderGeom)
    (h : (primLoop cfg st mesh p prims aabb geom).1.error = false) :
    st.error = false := by
  cases hE : st.error
  · rfl
  · rw [primLoop_error_mono cfg mesh prims st p aabb geom hE] at h
    cases h

theorem createRenderable_error_eq (cfg : LoaderConfig) (st : LoaderState)
    (mesh : CMesh) (entity : Nat) (world : Mat4)
    (h : (createRenderable cfg st mesh entity world).error = false) :
    st.error = false := by
  unfold createRenderable at h
  cases hlook : alookup st.meshCache mesh.id with
  | none =>
    rw [hlook] at h
    dsimp only at h
    have h2 := primLoop_error_back cfg mesh mesh.primitives _ 0 emptyAabb [] h
    exact h2
  | some l =>
    rw [hlook] at h
    dsimp only at h
    exact primLoop_error_back cfg mesh mesh.primitives _ 0 emptyAabb [] h

theorem createEntityStep_error_back (cfg : LoaderConfig) (st : LoaderState)
    (d : CNodeData) (world : Mat4)
    (h : (createEntityStep cfg st d world).error = false) :
    st.error = false := by
  unfold createEntityStep at h
  cases hm : d.mesh with
  | none =>
    rw [hm] at h
    exact h
  | some mesh =>
    rw [hm] at h
    dsimp only at h
    have h2 := createRenderable_error_eq cfg _ mesh _ world h
    exact h2

theorem processFlat_error_back (cfg : LoaderConfig) :
    ∀ (ns : List FlatNode) (st : LoaderState),
    (processFlat cfg st ns).error = false → st.error = false := by
  intro ns
  induction ns with
  | nil =>
    intro st h
    exact h
  | cons hd rest ih =>
    intro st h
    exact createEntityStep_error_back cfg st hd.data hd.world
      (ih (createEntityStep cfg st hd.data hd.world) h)

end Gltfio

namespace Gltfio

theorem inv_transport (s t : LoaderState)
    (hm : t.meshCache = s.meshCache) (hr : t.renderLog = s.renderLog)
    (hb : t.buildLog = s.buildLog)
    (h1 : RenderInv s) (h2 : BuildOnce s) (h3 : CachePairs s)
    (h4 : CacheCovered s) :
    RenderInv t ∧ BuildOnce t ∧ CachePairs t ∧ CacheCovered t := by
  refine ⟨?_, ?_, ?_, ?_⟩
  · unfold RenderInv
    simp only [hm, hr]
    exact h1
  · unfold BuildOnce
    simp only [hm, hb]
    exact h2
  · unfold CachePairs
    simp only [hm]
    exact h3
  · unfold CacheCovered
    simp only [hm, hr]
    exact h4

theorem geomOfFrom_congr (mesh : CMesh) (l1 l0 : List Primitive) (p len : Nat)
    (h : ∀ q, l1.getD q defaultPrimitive = l0.getD q defaultPrimitive) :
    geomOfFrom mesh l1 p len = geomOfFrom mesh l0 p len := by
  unfold geomOfFrom
  apply List.map_congr_left
  intro i _
  rw [h (p + i)]

theorem getD_out_of_range (l : List Primitive) (q : Nat) (h : l.length ≤ q) :
    l.getD q defaultPrimitive = defaultPrimitive := by
  rw [List.getD_eq_getElem?_getD, List.getElem?_eq_none h]
  rfl

end Gltfio

namespace Gltfio

theorem createRenderable_spec (cfg : LoaderConfig) (st : LoaderState)
    (mesh : CMesh) (entity : Nat) (world : Mat4)
    (herr : (createRenderable cfg st mesh entity world).error = false)
    (hri : RenderInv st) (hbo : BuildOnce st) (hcp : CachePairs st)
    (hcc : CacheCovered st)
    (hmc : ∀ rec ∈ st.renderLog, rec.mesh.id = mesh.id → rec.mesh = mesh) :
    RenderInv (createRenderable cfg st mesh entity world) ∧
    BuildOnce (createRenderable cfg st mesh entity world) ∧
    CachePairs (createRenderable cfg st mesh entity world) ∧
    CacheCovered (createRenderable cfg st mesh entity world) ∧
    (createRenderable cfg st mesh entity world).renderLog.map (fun r => r.mesh)
      = st.renderLog.map (fun r => r.mesh) ++ [mesh] := by
  unfold createRenderable at herr ⊢
  cases hlook : alookup st.meshCache mesh.id with
  | none =>
    rw [hlook] at herr
    dsimp only at herr ⊢
    set sd : LoaderState := { st with
      meshCache := aset st.meshCache mesh.id
        (List.replicate mesh.primitives.length defaultPrimitive) } with hsd
    have h0c : alookup sd.meshCache mesh.id
        = some (List.replicate mesh.primitives.length defaultPrimitive) :=
      alookup_aset_self st.meshCache mesh.id _
    have hboc : BuildOnce sd := by
      intro M p
      refine ⟨(hbo M p).1, ?_⟩
      intro hmem
      obtain ⟨l, hl, hlv⟩ := (hbo M p).2 hmem
      by_cases hM : M = mesh.id
      · rw [hM, hlook] at hl
        cases hl
      · refine ⟨l, ?_, hlv⟩
        show alookup (aset st.meshCache mesh.id
          (List.replicate mesh.primitives.length defaultPrimitive)) M = some l
        rw [alookup_aset_ne st.meshCache mesh.id M _ hM]
        exact hl
    have hcpc : CachePairs sd := by
      intro mid l hl pr hpr hprv
      by_cases hM : mid = mesh.id
      · subst hM
        rw [h0c] at hl
        injection hl with hl
        subst hl
        have hpd := List.eq_of_mem_replicate hpr
        rw [hpd] at hprv
        simp [defaultPrimitive] at hprv
      · have hl2 : alookup st.meshCache mid = some l := by
          have h3 : alookup (aset st.meshCache mesh.id
              (List.replicate mesh.primitives.length defaultPrimitive)) mid
              = some l := hl
          rw [alookup_aset_ne st.meshCache mesh.id mid _ hM] at h3
          exact h3
        exact hcp mid l hl2 pr hpr hprv
    obtain ⟨l1, ha1, hb1, hc1, hd1, he1, hf1, hg1, hh1, hi1, hj1⟩ :=
      primLoop_spec cfg mesh mesh.primitives 0 sd emptyAabb []
        (List.replicate mesh.primitives.length defaultPrimitive)
        (List.drop_zero _) h0c (List.length_replicate _ _) herr hboc hcpc
    have hall1 : allBuilt l1 := by
      intro pr hpr
      obtain ⟨i, hilt, hig⟩ := List.getElem_of_mem hpr
      have hgd : l1.getD i defaultPrimitive = pr := by
        rw [List.getD_eq_getElem _ _ hilt, hig]
      rw [hb1, List.length_replicate] at hilt
      have hx := he1 i (Nat.zero_le i) (by omega)
      rw [hgd] at hx
      exact hx
    have hgeom : (primLoop cfg sd mesh 0 mesh.primitives emptyAabb []).2.2
        = geomOf mesh l1 := by
      rw [hf1, List.nil_append]
      rfl
    refine ⟨?_, ?_, ?_, ?_, ?_⟩
    · intro rec hrec
      dsimp only at hrec
      rw [hi1] at hrec
      have hsdr : sd.renderLog = st.renderLog := rfl
      rw [hsdr, List.mem_append] at hrec
      rcases hrec with hrec | hrec
      · obtain ⟨l, hl, hlenr2, hbltr2, hgeq2⟩ := hri rec hrec
        by_cases hM : rec.mesh.id = mesh.id
        · rw [hM, hlook] at hl
          cases hl
        · refine ⟨l, ?_, hlenr2, hbltr2, hgeq2⟩
          show alookup (primLoop cfg sd mesh 0 mesh.primitives
            emptyAabb []).1.meshCache rec.mesh.id = some l
          rw [hg1 rec.mesh.id hM]
          show alookup (aset st.meshCache mesh.id
            (List.replicate mesh.primitives.length defaultPrimitive))
            rec.mesh.id = some l
          rw [alookup_aset_ne st.meshCache mesh.id rec.mesh.id _ hM]
          exact hl
      · rw [List.mem_singleton] at hrec
        subst hrec
        refine ⟨l1, ?_, ?_, hall1, ?_⟩
        · show alookup (primLoop cfg sd mesh 0 mesh.primitives
            emptyAabb []).1.meshCache mesh.id = some l1
          exact ha1
        · show l1.length = mesh.primitives.length
          rw [hb1, List.length_replicate]
        · show (primLoop cfg sd mesh 0 mesh.primitives emptyAabb []).2.2
            = geomOf mesh l1
          exact hgeom
    · intro M p
      exact hh1 M p
    · intro mid l hl pr hpr hprv
      exact hj1 mid l hl pr hpr hprv
    · intro mid l hl
      by_cases hM : mid = mesh.id
      · refine ⟨{ entity := entity
                  mesh := mesh
                  geom := (primLoop cfg sd mesh 0 mesh.primitives emptyAabb []).2.2 }, ?_, ?_⟩
        · show _ ∈ (primLoop cfg sd mesh 0 mesh.primitives emptyAabb []).1.renderLog
            ++ [{ entity := entity
                  mesh := mesh
                  geom := (primLoop cfg sd mesh 0 mesh.primitives emptyAabb []).2.2 }]
          exact List.mem_append_right _ (List.mem_singleton.mpr rfl)
        · show mesh.id = mid
          exact hM.symm
      · have hl2 : alookup (primLoop cfg sd mesh 0 mesh.primitives
            emptyAabb []).1.meshCache mid = some l := hl
        rw [hg1 mid hM] at hl2
        have hl3 : alookup (aset st.meshCache mesh.id
            (List.replicate mesh.primitives.length defaultPrimitive)) mid
            = some l := hl2
        rw [alookup_aset_ne st.meshCache mesh.id mid _ hM] at hl3
        obtain ⟨rec, hrecmem, hrecid⟩ := hcc mid l hl3
        refine ⟨rec, ?_, hrecid⟩
        show rec ∈ (primLoop cfg sd mesh 0 mesh.primitives emptyAabb []).1.renderLog
          ++ [{ entity := entity
                mesh := mesh
                geom := (primLoop cfg sd mesh 0 mesh.primitives emptyAabb []).2.2 }]
        apply List.mem_append_left
        rw [hi1]
        exact hrecmem
    · show ((primLoop cfg sd mesh 0 mesh.primitives emptyAabb []).1.renderLog
          ++ [({ entity := entity
                 mesh := mesh
                 geom := (primLoop cfg sd mesh 0 mesh.primitives emptyAabb []).2.2 } : RenderRec)]).map
          (fun r : RenderRec => r.mesh)
        = st.renderLog.map (fun r : RenderRec => r.mesh) ++ [mesh]
      rw [List.map_append, hi1]
      rfl
  | some l0 =>
    rw [hlook] at herr
    dsimp only at herr ⊢
    obtain ⟨rec0, hrec0mem, hrec0id⟩ := hcc mesh.id l0 hlook
    obtain ⟨lr, hlr, hlenr, hbltr, hgeqr⟩ := hri rec0 hrec0mem
    have hrm : rec0.mesh = mesh := hmc rec0 hrec0mem hrec0id
    have hlrl0 : lr = l0 := by
      rw [hrec0id, hlook] at hlr
      injection hlr with h
      exact h.symm
    have hlen0 : l0.length = mesh.primitives.length := by
      rw [← hlrl0, hlenr, hrm]
    have hall0 : allBuilt l0 := by
      rw [← hlrl0]
      exact hbltr
    obtain ⟨l1, ha1, hb1, hc1, hd1, he1, hf1, hg1, hh1, hi1, hj1⟩ :=
      primLoop_spec cfg mesh mesh.primitives 0 st emptyAabb [] l0
        (List.drop_zero _) hlook hlen0 herr hbo hcp
    have hstabAll : ∀ q, l1.getD q defaultPrimitive = l0.getD q defaultPrimitive := by
      intro q
      by_cases hq : q < l0.length
      · apply hd1
        have hmem0 : l0.getD q defaultPrimitive ∈ l0 := by
          rw [List.getD_eq_getElem _ _ hq]
          exact List.getElem_mem hq
        exact (hall0 _ hmem0).1
      · push_neg at hq
        rw [getD_out_of_range l1 q (by rw [hb1]; exact hq),
          getD_out_of_range l0 q hq]
    have hall1 : allBuilt l1 := by
      intro pr hpr
      obtain ⟨i, hilt, hig⟩ := List.getElem_of_mem hpr
      have hgd : l1.getD i defaultPrimitive = pr := by
        rw [List.getD_eq_getElem _ _ hilt, hig]
      rw [hb1, hlen0] at hilt
      have hx := he1 i (Nat.zero_le i) (by omega)
      rw [hgd] at hx
      exact hx
    have hgeomEq : geomOf mesh l1 = geomOf mesh l0 := by
      unfold geomOf
      exact geomOfFrom_congr mesh l1 l0 0 mesh.primitives.length hstabAll
    have hgeom : (primLoop cfg st mesh 0 mesh.primitives emptyAabb []).2.2
        = geomOf mesh l1 := by
      rw [hf1, List.nil_append]
      rfl
    refine ⟨?_, ?_, ?_, ?_, ?_⟩
    · intro rec hrec
      dsimp only at hrec
      rw [hi1, List.mem_append] at hrec
      rcases hrec with hrec | hrec
      · obtain ⟨l, hl, hlenr2, hbltr2, hgeq2⟩ := hri rec hrec
        by_cases hM : rec.mesh.id = mesh.id
        · have hrm2 : rec.mesh = mesh := hmc rec hrec hM
          have hll0 : l = l0 := by
            rw [hM, hlook] at hl
            injection hl with h
            exact h.symm
          refine ⟨l1, ?_, ?_, hall1, ?_⟩
          · show alookup (primLoop cfg st mesh 0 mesh.primitives
              emptyAabb []).1.meshCache rec.mesh.id = some l1
            rw [hM]
            exact ha1
          · rw [hb1, hlen0, hrm2]
          · rw [hgeq2, hll0, hrm2, hgeomEq]
        · refine ⟨l, ?_, hlenr2, hbltr2, hgeq2⟩
          show alookup (primLoop cfg st mesh 0 mesh.primitives
            emptyAabb []).1.meshCache rec.mesh.id = some l
          rw [hg1 rec.mesh.id hM]
          exact hl
      · rw [List.mem_singleton] at hrec
        subst hrec
        refine ⟨l1, ?_, ?_, hall1, ?_⟩
        · show alookup (primLoop cfg st mesh 0 mesh.primitives
            emptyAabb []).1.meshCache mesh.id = some l1
          exact ha1
        · show l1.length = mesh.primitives.length
          rw [hb1, hlen0]
        · show (primLoop cfg st mesh 0 mesh.primitives emptyAabb []).2.2
            = geomOf mesh l1
          exact hgeom
    · intro M p
      exact hh1 M p
    · intro mid l hl pr hpr hprv
      exact hj1 mid l hl pr hpr hprv
    · intro mid l hl
      by_cases hM : mid = mesh.id
      · refine ⟨{ entity := entity
                  mesh := mesh
                  geom := (primLoop cfg st mesh 0 mesh.primitives emptyAabb []).2.2 }, ?_, ?_⟩
        · show _ ∈ (primLoop cfg st mesh 0 mesh.primitives emptyAabb []).1.renderLog
            ++ [{ entity := entity
                  mesh := mesh
                  geom := (primLoop cfg st mesh 0 mesh.primitives emptyAabb []).2.2 }]
          exact List.mem_append_right _ (List.mem_singleton.mpr rfl)
        · show mesh.id = mid
          exact hM.symm
      · have hl2 : alookup (primLoop cfg st mesh 0 mesh.primitives
            emptyAabb []).1.meshCache mid = some l := hl
        rw [hg1 mid hM] at hl2
        obtain ⟨rec, hrecmem, hrecid⟩ := hcc mid l hl2
        refine ⟨rec, ?_, hrecid⟩
        show rec ∈ (primLoop cfg st mesh 0 mesh.primitives emptyAabb []).1.renderLog
          ++ [{ entity := entity
                mesh := mesh
                geom := (primLoop cfg st mesh 0 mesh.primitives emptyAabb []).2.2 }]
        apply List.mem_append_left
        rw [hi1]
        exact hrecmem
    · show ((primLoop cfg st mesh 0 mesh.primitives emptyAabb []).1.renderLog
          ++ [({ entity := entity
                 mesh := mesh
                 geom := (primLoop cfg st mesh 0 mesh.primitives emptyAabb []).2.2 } : RenderRec)]).map
          (fun r : RenderRec => r.mesh)
        = st.renderLog.map (fun r : RenderRec => r.mesh) ++ [mesh]
      rw [List.map_append, hi1]
      rfl

end Gltfio

namespace Gltfio

theorem PoolCoherent_of_subset {ms ts : List CMesh} (hsub : ∀ m ∈ ts, m ∈ ms)
    (h : PoolCoherent ms) : PoolCoherent ts := by
  intro m1 h1 m2 h2 hid
  exact h m1 (hsub m1 h1) m2 (hsub m2 h2) hid

theorem createEntityStep_spec (cfg : LoaderConfig) (st : LoaderState)
    (d : CNodeData) (world : Mat4)
    (herr : (createEntityStep cfg st d world).error = false)
    (hri : RenderInv st) (hbo : BuildOnce st) (hcp : CachePairs st)
    (hcc : CacheCovered st)
    (hmc : ∀ m, d.mesh = some m →
      ∀ rec ∈ st.renderLog, rec.mesh.id = m.id → rec.mesh = m) :
    RenderInv (createEntityStep cfg st d world) ∧
    BuildOnce (createEntityStep cfg st d world) ∧
    CachePairs (createEntityStep cfg st d world) ∧
    CacheCovered (createEntityStep cfg st d world) ∧
    (createEntityStep cfg st d world).renderLog.map (fun r => r.mesh)
      = st.renderLog.map (fun r => r.mesh) ++ d.mesh.toList := by
  unfold createEntityStep at herr ⊢
  cases hm : d.mesh with
  | none =>
    rw [hm] at herr
    dsimp only at herr ⊢
    obtain ⟨i1, i2, i3, i4⟩ := inv_transport st _ rfl rfl rfl hri hbo hcp hcc
    refine ⟨i1, i2, i3, i4, ?_⟩
    have hrl : (alloc st).2.renderLog = st.renderLog := rfl
    simp [hrl, Option.toList]
  | some mesh =>
    rw [hm] at herr
    dsimp only at herr ⊢
    obtain ⟨i1, i2, i3, i4⟩ := inv_transport st { (alloc st).2 with
        entities := (alloc st).2.entities ++ [(alloc st).1]
        nodeMap := aset (alloc st).2.nodeMap d.id (alloc st).1 }
      rfl rfl rfl hri hbo hcp hcc
    have hmc2 : ∀ rec ∈ ({ (alloc st).2 with
        entities := (alloc st).2.entities ++ [(alloc st).1]
        nodeMap := aset (alloc st).2.nodeMap d.id (alloc st).1 } :
          LoaderState).renderLog,
        rec.mesh.id = mesh.id → rec.mesh = mesh := by
      intro rec hrec hid
      exact hmc mesh hm rec hrec hid
    obtain ⟨j1, j2, j3, j4, j5⟩ := createRenderable_spec cfg _ mesh (alloc st).1
      world herr i1 i2 i3 i4 hmc2
    refine ⟨j1, j2, j3, j4, ?_⟩
    rw [j5]
    rfl

end Gltfio

namespace Gltfio

theorem processFlat_spec (cfg : LoaderConfig) :
    ∀ (ns : List FlatNode) (st : LoaderState),
    (processFlat cfg st ns).error = false →
    RenderInv st → BuildOnce st → CachePairs st → CacheCovered st →
    PoolCoherent (meshPool st ns) →
    RenderInv (processFlat cfg st ns) ∧ BuildOnce (processFlat cfg st ns) ∧
    CachePairs (processFlat cfg st ns) ∧ CacheCovered (processFlat cfg st ns) ∧
    (processFlat cfg st ns).renderLog.map (fun r => r.mesh)
      = st.renderLog.map (fun r => r.mesh) ++ ns.filterMap (fun n => n.data.mesh) := by
  intro ns
  induction ns with
  | nil =>
    intro st herr h1 h2 h3 h4 _
    exact ⟨h1, h2, h3, h4, by simp [processFlat]⟩
  | cons hd rest ih =>
    intro st herr h1 h2 h3 h4 hpool
    have herr1 : (createEntityStep cfg st hd.data hd.world).error = false :=
      processFlat_error_back cfg rest _ herr
    have hmc : ∀ m, hd.data.mesh = some m →
        ∀ rec ∈ st.renderLog, rec.mesh.id = m.id → rec.mesh = m := by
      intro m hmm rec hrec hid
      apply hpool
      · unfold meshPool
        apply List.mem_append_left
        exact List.mem_map_of_mem _ hrec
      · unfold meshPool
        apply List.mem_append_right
        rw [List.mem_filterMap]
        exact ⟨hd, List.mem_cons_self hd rest, hmm⟩
      · exact hid
    obtain ⟨s1, s2, s3, s4, s5⟩ :=
      createEntityStep_spec cfg st hd.data hd.world herr1 h1 h2 h3 h4 hmc
    have hpool2 : PoolCoherent
        (meshPool (createEntityStep cfg st hd.data hd.world) rest) := by
      apply PoolCoherent_of_subset _ hpool
      intro m hmem
      unfold meshPool at hmem ⊢
      rw [List.mem_append] at hmem ⊢
      rcases hmem with hmem | hmem
      · rw [s5, List.mem_append] at hmem
        rcases hmem with hmem | hmem
        · exact Or.inl hmem
        · right
          rw [List.mem_filterMap]
          cases hmm : hd.data.mesh with
          | none =>
            rw [hmm] at hmem
            cases hmem
          | some m0 =>
            rw [hmm] at hmem
            simp only [Option.toList, List.mem_singleton] at hmem
            exact ⟨hd, List.mem_cons_self hd rest, by rw [hmm, hmem]⟩
      · right
        rw [List.mem_filterMap] at hmem ⊢
        obtain ⟨n, hn, hnm⟩ := hmem
        exact ⟨n, List.mem_cons_of_mem hd hn, hnm⟩
    have herr2 : (processFlat cfg (createEntityStep cfg st hd.data hd.world)
        rest).error = false := herr
    obtain ⟨t1, t2, t3, t4, t5⟩ := ih _ herr2 s1 s2 s3 s4 hpool2
    refine ⟨t1, t2, t3, t4, ?_⟩
    show (processFlat cfg (createEntityStep cfg st hd.data hd.world)
      rest).renderLog.map (fun r => r.mesh) = _
    rw [t5, s5, List.filterMap_cons]
    cases hmm : hd.data.mesh with
    | none => simp [Option.toList]
    | some m0 => simp [Option.toList]

end Gltfio

namespace Gltfio

theorem traversalStart_fields (doc : CDocument) :
    (traversalStart doc).renderLog = [] ∧ (traversalStart doc).meshCache = [] ∧
    (traversalStart doc).buildLog = [] := by
  unfold traversalStart
  cases doc.scene.orElse (fun _ => doc.scenes.head?) <;> exact ⟨rfl, rfl, rfl⟩

theorem start_invariants (doc : CDocument) :
    RenderInv (traversalStart doc) ∧ BuildOnce (traversalStart doc) ∧
    CachePairs (traversalStart doc) ∧ CacheCovered (traversalStart doc) := by
  obtain ⟨hr, hm, hb⟩ := traversalStart_fields doc
  refine ⟨?_, ?_, ?_, ?_⟩
  · intro rec hrec
    rw [hr] at hrec
    cases hrec
  · intro M p
    constructor
    · rw [hb]
      simp
    · intro hmem
      rw [hb] at hmem
      cases hmem
  · intro mid l hl pr hpr hprv
    rw [hm] at hl
    simp [alookup] at hl
  · intro mid l hl
    rw [hm] at hl
    simp [alookup] at hl

end Gltfio

namespace Gltfio

/-- C3: in an error-free import of a document whose node meshes are
identified by address (equal mesh ids mean the same mesh object, as for
C++ pointers), any two renderables created for nodes referencing the same
mesh carry identity-equal geometry records — the same vertex-buffer and
index-buffer handles from the shared mesh-cache entry — and
`createPrimitive` ran at most once per (mesh, primitive) for the whole
import. -/
theorem c3_mesh_memoized_shared_buffers (cfg : LoaderConfig) (doc : CDocument)
    (herr : (runDoc cfg doc).error = false)
    (hcoh : MeshCoherent (flatDoc doc)) :
    (∀ r1 ∈ (runDoc cfg doc).renderLog, ∀ r2 ∈ (runDoc cfg doc).renderLog,
      r1.mesh.id = r2.mesh.id → r1.geom = r2.geom) ∧
    (∀ M p, (((runDoc cfg doc).buildLog).filter
      (fun e => decide (e = (M, p)))).length ≤ 1) := by
  rw [runDoc_eq_processFlat] at herr ⊢
  obtain ⟨i1, i2, i3, i4⟩ := start_invariants doc
  have hpool : PoolCoherent (meshPool (traversalStart doc) (flatDoc doc)) := by
    intro m1 h1 m2 h2 hid
    unfold meshPool at h1 h2
    obtain ⟨hr0, _, _⟩ := traversalStart_fields doc
    rw [hr0] at h1 h2
    simp only [List.map_nil, List.nil_append] at h1 h2
    rw [List.mem_filterMap] at h1 h2
    obtain ⟨n1, hn1, hnm1⟩ := h1
    obtain ⟨n2, hn2, hnm2⟩ := h2
    exact hcoh n1 hn1 n2 hn2 m1 m2 hnm1 hnm2 hid
  obtain ⟨t1, t2, t3, t4, t5⟩ := processFlat_spec cfg (flatDoc doc)
    (traversalStart doc) herr i1 i2 i3 i4 hpool
  constructor
  · intro r1 hr1 r2 hr2 hid
    obtain ⟨l1, hl1, hlen1, hall1, hg1⟩ := t1 r1 hr1
    obtain ⟨l2, hl2, hlen2, hall2, hg2⟩ := t1 r2 hr2
    have hll : l1 = l2 := by
      rw [hid] at hl1
      rw [hl1] at hl2
      exact Option.some.inj hl2
    have hmesh : r1.mesh = r2.mesh := by
      have hmem1 := List.mem_map_of_mem (fun r : RenderRec => r.mesh) hr1
      have hmem2 := List.mem_map_of_mem (fun r : RenderRec => r.mesh) hr2
      rw [t5] at hmem1 hmem2
      obtain ⟨hr0, _, _⟩ := traversalStart_fields doc
      rw [hr0] at hmem1 hmem2
      simp only [List.map_nil, List.nil_append] at hmem1 hmem2
      rw [List.mem_filterMap] at hmem1 hmem2
      obtain ⟨n1, hn1, hnm1⟩ := hmem1
      obtain ⟨n2, hn2, hnm2⟩ := hmem2
      exact hcoh n1 hn1 n2 hn2 r1.mesh r2.mesh hnm1 hnm2 hid
    rw [hg1, hg2, hmesh, hll]
  · intro M p
    exact (t2 M p).1

set_option maxRecDepth 8192 in
/-- Concrete instantiation of C3 on a two-node document sharing one mesh. -/
theorem c3_mesh_memoized_shared_buffers_witness :
    (runDoc wCfg wDocShared).error = false ∧
    MeshCoherent (flatDoc wDocShared) ∧
    ((∀ r1 ∈ (runDoc wCfg wDocShared).renderLog,
        ∀ r2 ∈ (runDoc wCfg wDocShared).renderLog,
        r1.mesh.id = r2.mesh.id → r1.geom = r2.geom) ∧
      (∀ M p, (((runDoc wCfg wDocShared).buildLog).filter
        (fun e => decide (e = (M, p)))).length ≤ 1)) := by
  have herr : (runDoc wCfg wDocShared).error = false := by
    with_unfolding_all decide
  have hall : ∀ n ∈ flatDoc wDocShared, n.data.mesh = some wMesh := by
    with_unfolding_all decide
  have hmc : MeshCoherent (flatDoc wDocShared) := by
    intro n1 hn1 n2 hn2 m1 m2 e1 e2 _
    rw [hall n1 hn1] at e1
    rw [hall n2 hn2] at e2
    injection e1 with e1
    injection e2 with e2
    rw [← e1, ← e2]
  exact ⟨herr, hmc, c3_mesh_memoized_shared_buffers wCfg wDocShared herr hmc⟩

end Gltfio
